import Mathlib

/-!
Execution-control core of the X16 debugger (`src/debugger/debugger.c`).

A shallow embedding of the poll entry point `DEBUGGetCurrentStatus`, the key
dispatcher `DEBUGHandleKeyEvent`, `isOnBreakpoint` and `DEBUGBreakToDebugger`.

The module-level globals of `debugger.c` become the fields of `DebugState`,
together with the CPU register `pc` that the debugger reads (and that
`reset6502` rewrites).  Everything the poll obtains from its collaborators
during one call (keyboard state, the SDL event queue, the active memory banks,
memory reads, the console and the command table) is gathered in `Host`.

C `int`s are modelled as `Int`; the debugger never relies on wrap-around.
-/

namespace X16Debugger

/-- The three values `currentMode` takes (`DMODE_STOP`, `DMODE_STEP`,
`DMODE_RUN` of `debugger.h`); they are pairwise distinct constants. -/
inductive DMode where
  | DMODE_STOP
  | DMODE_STEP
  | DMODE_RUN
  deriving DecidableEq, Repr

/-- The values of `dumpmode`: `DDUMP_RAM` or the video-memory dump. -/
inductive DumpMode where
  | DDUMP_RAM
  | DDUMP_VERA
  deriving DecidableEq, Repr

/-- An `SDL_Rect`: position and extent of a screen zone. -/
structure SDL_Rect where
  x : Int
  y : Int
  w : Int
  h : Int
  deriving DecidableEq, Repr

def smallDataZoneRect : SDL_Rect := ⟨0, 290, 525, 455⟩
def smallCodeZoneRect : SDL_Rect := ⟨0, 0, 310, 280⟩
def largeCodeZoneRect : SDL_Rect := ⟨0, 0, 330, 745⟩
def emptyZoneRect : SDL_Rect := ⟨0, 0, 0, 0⟩

/-- The SDL helper `SDL_PointInRect`: the point lies inside the half-open
rectangle. -/
def SDL_PointInRect (px py : Int) (r : SDL_Rect) : Bool :=
  decide (px ≥ r.x) && decide (px < r.x + r.w) && decide (py ≥ r.y) && decide (py < r.y + r.h)

/-- The key codes the debugger distinguishes (`DBGKEY_*`), and any other key. -/
inductive SDL_Keycode where
  | SDLK_F1
  | SDLK_F2
  | SDLK_F5
  | SDLK_F9
  | SDLK_F10
  | SDLK_F11
  | SDLK_KP_PLUS
  | SDLK_KP_MINUS
  | SDLK_OTHER (code : Nat)
  deriving DecidableEq, Repr

def DBGKEY_HOME : SDL_Keycode := .SDLK_F1
def DBGKEY_RESET : SDL_Keycode := .SDLK_F2
def DBGKEY_RUN : SDL_Keycode := .SDLK_F5
def DBGKEY_SETBRK : SDL_Keycode := .SDLK_F9
def DBGKEY_STEP : SDL_Keycode := .SDLK_F11
def DBGKEY_STEPOVER : SDL_Keycode := .SDLK_F10
def DBGKEY_PAGE_NEXT : SDL_Keycode := .SDLK_KP_PLUS
def DBGKEY_PAGE_PREV : SDL_Keycode := .SDLK_KP_MINUS

/-- The SDL events the poll loop switches on, and any other event type. -/
inductive SDL_Event where
  | SDL_QUIT
  | SDL_KEYDOWN (sym : SDL_Keycode) (isShift : Int)
  | SDL_MOUSEMOTION (windowID : Nat) (x : Int) (y : Int)
  | SDL_MOUSEWHEEL (windowID : Nat) (y : Int)
  | SDL_OTHEREVENT (type : Nat)
  deriving DecidableEq, Repr

/-- The globals of `debugger.c` that the control logic reads or writes, plus
the CPU program counter `pc` (a 16-bit register owned by the CPU core). -/
structure DebugState where
  pc : Int
  showDebugOnRender : Int
  showFullDisplay : Int
  currentPC : Int
  currentData : Int
  currentPCBank : Int
  currentBank : Int
  currentMode : DMode
  stepBreakPoint : Int
  dumpmode : DumpMode
  showFullConsole : Int
  breakpoints : List Int
  breakpointsCount : Int
  isWindowVisible : Int
  mouseZone : Int
  disasmLine1Size : Int
  layout : Int
  codeZoneRect : SDL_Rect
  dataZoneRect : SDL_Rect
  dbgWindowID : Nat
  deriving DecidableEq

/-- What one call of the poll obtains from its collaborators.

* `keyBRK`, `keySHOW`: `SDL_GetKeyboardState(NULL)` at `DBGSCANKEY_BRK`
  and `DBGSCANKEY_SHOW`;
* `events`: the events `SDL_PollEvent` hands out, in order;
* `ram_bank`, `rom_bank`: `memory_get_ram_bank()`, `memory_get_rom_bank()`;
* `real_read6502 a`: the byte `real_read6502(a, false, 0)`;
* `reset6502 p`: the program counter after `reset6502()` when it was `p`;
* `isValidAddr`, `disasm`: the display helpers used on the first code line;
* `cmd_bp a`: the effect of the console command `bp a`, which
  `DEBUGSetBreakPoint` runs through the command table (`commands.h`);
* `CON_Events e`: the effect of handing event `e` to the console. -/
structure Host where
  keyBRK : Int
  keySHOW : Int
  events : List SDL_Event
  ram_bank : Int
  rom_bank : Int
  real_read6502 : Int → Int
  reset6502 : Int → Int
  isValidAddr : Int → Int → Bool
  disasm : Int → Int → Int
  cmd_bp : Int → DebugState → DebugState
  CON_Events : SDL_Event → DebugState → DebugState

/-- The `for` loop of `isOnBreakpoint`, at index `idx` with `n` iterations
left.  `breakpointsCount` never exceeds the array size, so every read is in
bounds; `getD` only keeps the function total. -/
def isOnBreakpointFrom (breakpoints : List Int) (addr : Int) : Nat → Nat → Bool
  | _, 0 => false
  | idx, n + 1 =>
    if breakpoints.getD idx 0 == addr then true
    else isOnBreakpointFrom breakpoints addr (idx + 1) n

/-- The function `isOnBreakpoint(addr)`: scan
`breakpoints[0 .. breakpointsCount-1]`. -/
def isOnBreakpoint (s : DebugState) (addr : Int) : Bool :=
  isOnBreakpointFrom s.breakpoints addr 0 s.breakpointsCount.toNat

/-- The function `DEBUGBreakToDebugger`: break into the debugger from code. -/
def DEBUGBreakToDebugger (s : DebugState) : DebugState :=
  { s with currentMode := .DMODE_STOP, currentPC := s.pc }

/-- The function `DEBUGSetBreakPoint(newBreakPoint)`: formats `bp <hex>` and runs it through
`DEBUG_Command_Handler`, i.e. the `bp` entry of the command table. -/
def DEBUGSetBreakPoint (h : Host) (newBreakPoint : Int) (s : DebugState) : DebugState :=
  h.cmd_bp newBreakPoint s

/-- The function `DEBUGHandleKeyEvent(key, isShift)`; `isShift` is not used by
any case. -/
def DEBUGHandleKeyEvent (h : Host) (key : SDL_Keycode) (_isShift : Int)
    (s : DebugState) : DebugState :=
  match key with
  | .SDLK_F11 => { s with currentMode := .DMODE_STEP }
  | .SDLK_F10 =>
    let opcode := h.real_read6502 s.pc
    if opcode = 0x20 then
      { s with stepBreakPoint := s.pc + 3, currentMode := .DMODE_RUN }
    else
      { s with currentMode := .DMODE_STEP }
  | .SDLK_F5 => { s with currentMode := .DMODE_RUN }
  | .SDLK_F9 => DEBUGSetBreakPoint h s.currentPC s
  | .SDLK_F1 =>
    let s1 := { s with currentPC := s.pc }
    { s1 with currentPCBank := if s1.currentPC < 0xC000 then h.ram_bank else h.rom_bank }
  | .SDLK_F2 =>
    let s1 := { s with pc := h.reset6502 s.pc }
    { s1 with currentPC := s1.pc, currentPCBank := -1 }
  | .SDLK_KP_PLUS => { s with currentBank := s.currentBank + 1 }
  | .SDLK_KP_MINUS => { s with currentBank := s.currentBank - 1 }
  | .SDLK_OTHER _ => s

/-- The `SDL_MOUSEMOTION` case of the event switch. -/
def handleMouseMotion (windowID : Nat) (x y : Int) (s : DebugState) : DebugState :=
  if s.dbgWindowID ≠ windowID then s
  else if SDL_PointInRect x y s.dataZoneRect then { s with mouseZone := 2 }
  else if SDL_PointInRect x y s.codeZoneRect then { s with mouseZone := 1 }
  else { s with mouseZone := 0 }

/-- The `SDL_MOUSEWHEEL` case of the event switch.  The C operator `&` on
`int` is the bitwise and of the two's complement representations, `Int.land`. -/
def handleMouseWheel (windowID : Nat) (y : Int) (s : DebugState) : DebugState :=
  if s.dbgWindowID ≠ windowID ∨ y = 0 then s
  else if s.mouseZone = 1 then
    let inc := if y > 0 then -3 else s.disasmLine1Size
    { s with currentPC := s.currentPC + inc }
  else if s.mouseZone = 2 then
    let inc : Int := if y > 0 then -0x200 else 0x200
    { s with currentData :=
        Int.land (s.currentData + inc) (if s.dumpmode = .DDUMP_RAM then 0xFFFF else 0x1FFFF) }
  else s

/-- The `switch(event.type)` of the poll loop for an event other than
`SDL_QUIT`, followed by `CON_Events(&event)`. -/
def handleEvent (h : Host) (e : SDL_Event) (s : DebugState) : DebugState :=
  let s1 :=
    match e with
    | .SDL_QUIT => s
    | .SDL_KEYDOWN sym isShift => DEBUGHandleKeyEvent h sym isShift s
    | .SDL_MOUSEMOTION wid x y => handleMouseMotion wid x y s
    | .SDL_MOUSEWHEEL wid y => handleMouseWheel wid y s
    | .SDL_OTHEREVENT _ => s
  h.CON_Events e s1

/-- The loop `while (SDL_PollEvent(&event))`: the flag is `true` when the loop
left through `return -1` on an `SDL_QUIT`. -/
def drainEvents (h : Host) : List SDL_Event → DebugState → Bool × DebugState
  | [], s => (false, s)
  | .SDL_QUIT :: _, s => (true, s)
  | e :: rest, s => drainEvents h rest (handleEvent h e s)

/-- Line 214: initialise the displayed PC. -/
def checkInit (s : DebugState) : DebugState :=
  if s.currentPC < 0 then { s with currentPC := s.pc } else s

/-- Lines 216-219: a single step has been done. -/
def checkStep (s : DebugState) : DebugState :=
  if s.currentMode = .DMODE_STEP then
    { s with currentPC := s.pc, currentMode := .DMODE_STOP }
  else s

/-- The condition of line 221. -/
def hitBreakpoint (s : DebugState) : Bool :=
  (decide (s.breakpointsCount ≠ 0) && isOnBreakpoint s s.pc) || decide (s.pc = s.stepBreakPoint)

/-- Lines 221-227: a breakpoint or the step breakpoint is hit. -/
def checkBreakpoint (s : DebugState) : DebugState :=
  if hitBreakpoint s then
    let s1 := if s.currentMode ≠ .DMODE_STOP then { s with currentPC := s.pc } else s
    { s1 with currentMode := .DMODE_STOP, stepBreakPoint := -1 }
  else s

/-- Lines 229-232: stop on the break key. -/
def checkBreakKey (h : Host) (s : DebugState) : DebugState :=
  if h.keyBRK ≠ 0 then { s with currentMode := .DMODE_STOP, currentPC := s.pc } else s

/-- Lines 234-236: resolve the bank of the displayed PC. -/
def checkBank (h : Host) (s : DebugState) : DebugState :=
  if s.currentPCBank < 0 ∧ s.currentPC ≥ 0xA000 then
    { s with currentPCBank := if s.currentPC < 0xC000 then h.ram_bank else h.rom_bank }
  else s

/-- Lines 214-236: everything the poll does before it looks at the input. -/
def pollChecks (h : Host) (s : DebugState) : DebugState :=
  checkBank h (checkBreakKey h (checkBreakpoint (checkStep (checkInit s))))

/-- The effect of `DEBUGRenderDisplay` on the globals: it selects the zone
rectangles of the layout and `DEBUGRenderCode` records the size of the first
disassembled line. -/
def DEBUGRenderDisplay (h : Host) (s : DebugState) : DebugState :=
  if s.showFullDisplay ≠ 0 then s
  else if s.showFullConsole ≠ 0 then s
  else
    let s1 :=
      if s.layout = 1 then
        { s with codeZoneRect := largeCodeZoneRect, dataZoneRect := emptyZoneRect }
      else
        { s with codeZoneRect := smallCodeZoneRect, dataZoneRect := smallDataZoneRect }
    if h.isValidAddr s1.currentPCBank s1.currentPC then
      { s1 with disasmLine1Size := h.disasm s1.currentPC s1.currentPCBank }
    else s1

/-- Lines 301-319: set the render flag, and either draw the debugger and
return 1 or hide its window and return 0.  `video_update` and the SDL window
and renderer calls do not touch the debugger globals. -/
def pollFinish (h : Host) (s : DebugState) : Int × DebugState :=
  let s1 := { s with showDebugOnRender := if s.currentMode ≠ .DMODE_RUN then 1 else 0 }
  if s1.currentMode = .DMODE_STOP then
    let s2 := if s1.isWindowVisible = 0 then { s1 with isWindowVisible := 1 } else s1
    (1, DEBUGRenderDisplay h s2)
  else
    (0, { s1 with isWindowVisible := 0 })

/-- Lines 238-299: when not running, latch the show-screen key and drain the
event queue. -/
def pollInput (h : Host) (s : DebugState) : Bool × DebugState :=
  if s.currentMode ≠ .DMODE_RUN then
    drainEvents h h.events { s with showFullDisplay := h.keySHOW }
  else (false, s)

/-- The poll `DEBUGGetCurrentStatus()`: the returned status and the globals
afterwards. -/
def DEBUGGetCurrentStatus (h : Host) (s : DebugState) : Int × DebugState :=
  let r := pollInput h (pollChecks h s)
  if r.1 then (-1, r.2) else pollFinish h r.2

/-- The host loop around the poll: before each poll the CPU has reached the
given program counter; the statuses are collected in order. -/
def pollSequence : List (Host × Int) → DebugState → List Int × DebugState
  | [], s => ([], s)
  | (h, p) :: rest, s =>
    let r := DEBUGGetCurrentStatus h { s with pc := p }
    let q := pollSequence rest r.2
    (r.1 :: q.1, q.2)

/-- A host with no key held, no queued event, and collaborators that leave
the debugger globals alone. -/
def idleHost : Host where
  keyBRK := 0
  keySHOW := 0
  events := []
  ram_bank := 0
  rom_bank := 0
  real_read6502 := fun _ => 0
  reset6502 := fun p => p
  isValidAddr := fun _ _ => false
  disasm := fun _ _ => 1
  cmd_bp := fun _ s => s
  CON_Events := fun _ s => s

/-- The globals as statically initialised in `debugger.c`, with `pc = 0`. -/
def initialState : DebugState where
  pc := 0
  showDebugOnRender := 0
  showFullDisplay := 0
  currentPC := -1
  currentData := 0
  currentPCBank := -1
  currentBank := 0
  currentMode := .DMODE_RUN
  stepBreakPoint := -1
  dumpmode := .DDUMP_RAM
  showFullConsole := 0
  breakpoints := [0, 0, 0, 0, 0, 0, 0, 0]
  breakpointsCount := 0
  isWindowVisible := 0
  mouseZone := 0
  disasmLine1Size := 0
  layout := 0
  codeZoneRect := smallCodeZoneRect
  dataZoneRect := smallDataZoneRect
  dbgWindowID := 1

/-- The events of a list applied in order, none of them being `SDL_QUIT`. -/
def applyEvents (h : Host) (evs : List SDL_Event) (s : DebugState) : DebugState :=
  evs.foldl (fun t e => handleEvent h e t) s

/-- The key presses that assign `currentMode`: Run, StepOver and StepInto. -/
def isModeKey : SDL_Event → Bool
  | .SDL_KEYDOWN .SDLK_F5 _ => true
  | .SDL_KEYDOWN .SDLK_F10 _ => true
  | .SDL_KEYDOWN .SDLK_F11 _ => true
  | _ => false

/-- The key presses that relocate the cursor and touch its bank: GoToPC and
ResetCPU. -/
def isRelocateKey : SDL_Event → Bool
  | .SDL_KEYDOWN .SDLK_F1 _ => true
  | .SDL_KEYDOWN .SDLK_F2 _ => true
  | _ => false

/-- The scenario of the specification: breakpoint 0x810D stored once, mode RUN,
the CPU reaches 0x810D. -/
def scenarioBreakpoint : DebugState :=
  { initialState with
    pc := 0x810D, breakpoints := [0x810D, 0, 0, 0, 0, 0, 0, 0], breakpointsCount := 1 }

/-- A host whose memory holds the opcode 0x20 (JSR) at every address. -/
def jsrHost : Host := { idleHost with real_read6502 := fun _ => 0x20 }

/-- Stopped at 0x8000 with a user breakpoint stored at 0x9000. -/
def scenarioStepOver : DebugState :=
  { initialState with
    pc := 0x8000, currentPC := 0x8000, currentMode := .DMODE_STOP,
    breakpoints := [0x9000, 0, 0, 0, 0, 0, 0, 0], breakpointsCount := 1 }

/-- Stopped at 0x8000 with no breakpoint stored. -/
def scenarioStopped : DebugState :=
  { initialState with pc := 0x8000, currentPC := 0x8000, currentMode := .DMODE_STOP }

/-- Stopped at 0x8000 with a user breakpoint stored at 0x8000 itself. -/
def scenarioOnBreakpoint : DebugState :=
  { initialState with
    pc := 0x8000, currentPC := 0x8000, currentMode := .DMODE_STOP,
    breakpoints := [0x8000, 0, 0, 0, 0, 0, 0, 0], breakpointsCount := 1 }

/-- A host whose queue holds a cursor scroll request, a StepInto key and a
bank-page key. -/
def stepIntoHost : Host :=
  { idleHost with
    events := [.SDL_MOUSEWHEEL 1 1, .SDL_KEYDOWN .SDLK_F11 0, .SDL_KEYDOWN .SDLK_KP_PLUS 0] }

/-- A host whose queue holds a Run key. -/
def runKeyHost : Host := { idleHost with events := [.SDL_KEYDOWN .SDLK_F5 0] }

/-- A host with the break key (F12) held. -/
def breakKeyHost : Host := { idleHost with keyBRK := 1 }

/-- A host whose queue holds a Run key, a quit event and a StepInto key. -/
def quitHost : Host :=
  { idleHost with
    events := [.SDL_KEYDOWN .SDLK_F5 0, .SDL_QUIT, .SDL_KEYDOWN .SDLK_F11 0] }

/-- A host whose queue holds a pointer motion and a quit event. -/
def motionQuitHost : Host :=
  { idleHost with events := [.SDL_MOUSEMOTION 1 10 10, .SDL_QUIT] }

/-- Running at 0x9000 inside a subroutine, the step breakpoint armed at 0x8003. -/
def scenarioArmed : DebugState :=
  { initialState with
    pc := 0x9000, currentPC := 0x8000, currentMode := .DMODE_RUN, stepBreakPoint := 0x8003 }

/-- Single-stepping at 0x9000 with the step breakpoint armed at 0x8003. -/
def scenarioArmedStep : DebugState :=
  { scenarioArmed with currentMode := .DMODE_STEP }

/-- Stopped at 0x8000, the cursor scrolled to address 2, the pointer in the
code zone. -/
def scenarioLowCursor : DebugState :=
  { initialState with
    pc := 0x8000, currentPC := 2, currentMode := .DMODE_STOP, mouseZone := 1 }

/-- A host whose queue holds one wheel-up movement in the debugger window. -/
def wheelUpHost : Host := { idleHost with events := [.SDL_MOUSEWHEEL 1 1] }

/-- Stopped on a stored breakpoint at 0x8000 with the cursor scrolled to 0x7FF0. -/
def scenarioScrolled : DebugState :=
  { scenarioOnBreakpoint with currentPC := 0x7FF0, stepBreakPoint := 0x8000 }

/-- A host reporting RAM bank 5 and ROM bank 3. -/
def bankHost : Host := { idleHost with ram_bank := 5, rom_bank := 3 }

/-- A host reporting RAM bank 9 and ROM bank 7, with a scroll, a breakpoint
toggle and a Run key queued. -/
def busyHost : Host :=
  { idleHost with
    ram_bank := 9, rom_bank := 7,
    events := [.SDL_MOUSEWHEEL 1 (-1), .SDL_KEYDOWN .SDLK_F9 0, .SDL_KEYDOWN .SDLK_F5 0] }

/-- Stopped at 0xA100 with the cursor bank unresolved. -/
def scenarioBanked : DebugState :=
  { initialState with pc := 0xA100, currentPC := 0xA100, currentMode := .DMODE_STOP }

/-- Stopped at 0xC100 with the cursor bank resolved to bank 4. -/
def scenarioResolved : DebugState :=
  { initialState with
    pc := 0xC100, currentPC := 0xC100, currentPCBank := 4, currentMode := .DMODE_STOP,
    mouseZone := 1 }

/-- Stopped with the pointer in the data zone, the RAM dump showing 0x0100. -/
def scenarioDataRam : DebugState :=
  { scenarioStopped with mouseZone := 2, currentData := 0x0100, dumpmode := .DDUMP_RAM }

/-- Stopped with the pointer in the data zone, the video-memory dump showing
0x1FF00. -/
def scenarioDataVera : DebugState :=
  { scenarioStopped with mouseZone := 2, currentData := 0x1FF00, dumpmode := .DDUMP_VERA }

/-- A store holding the two breakpoints 0x810D and 0x9000. -/
def scenarioTwoBreakpoints : DebugState :=
  { initialState with
    breakpoints := [0x810D, 0x9000, 0, 0, 0, 0, 0, 0], breakpointsCount := 2 }

/-- A host whose queue holds a StepInto key. -/
def stepKeyHost : Host := { idleHost with events := [.SDL_KEYDOWN .SDLK_F11 0] }

/-- The StepOver key press, the only event that arms the step breakpoint. -/
def isStepOverKey : SDL_Event → Bool
  | .SDL_KEYDOWN .SDLK_F10 _ => true
  | _ => false

/-- The state the break-key poll leaves when it interrupts the armed run of
`scenarioArmed`: stopped at 0x9000, the step breakpoint still 0x8003. -/
def scenarioBroken : DebugState := (DEBUGGetCurrentStatus breakKeyHost scenarioArmed).2

/-! ## Frame lemmas for the parts of the poll -/

section Frame

variable (h : Host) (s : DebugState)

@[simp] theorem render_currentMode :
    (DEBUGRenderDisplay h s).currentMode = s.currentMode := by
  unfold DEBUGRenderDisplay; dsimp only; split_ifs <;> rfl

@[simp] theorem render_currentPC :
    (DEBUGRenderDisplay h s).currentPC = s.currentPC := by
  unfold DEBUGRenderDisplay; dsimp only; split_ifs <;> rfl

@[simp] theorem render_stepBreakPoint :
    (DEBUGRenderDisplay h s).stepBreakPoint = s.stepBreakPoint := by
  unfold DEBUGRenderDisplay; dsimp only; split_ifs <;> rfl

@[simp] theorem render_currentPCBank :
    (DEBUGRenderDisplay h s).currentPCBank = s.currentPCBank := by
  unfold DEBUGRenderDisplay; dsimp only; split_ifs <;> rfl

@[simp] theorem render_breakpoints :
    (DEBUGRenderDisplay h s).breakpoints = s.breakpoints := by
  unfold DEBUGRenderDisplay; dsimp only; split_ifs <;> rfl

@[simp] theorem render_breakpointsCount :
    (DEBUGRenderDisplay h s).breakpointsCount = s.breakpointsCount := by
  unfold DEBUGRenderDisplay; dsimp only; split_ifs <;> rfl

@[simp] theorem render_pc :
    (DEBUGRenderDisplay h s).pc = s.pc := by
  unfold DEBUGRenderDisplay; dsimp only; split_ifs <;> rfl

theorem pollFinish_status :
    (pollFinish h s).1 = if s.currentMode = .DMODE_STOP then 1 else 0 := by
  unfold pollFinish; simp only []; split_ifs <;> rfl

@[simp] theorem pollFinish_currentMode :
    (pollFinish h s).2.currentMode = s.currentMode := by
  unfold pollFinish; simp only []; split_ifs <;> simp

@[simp] theorem pollFinish_currentPC :
    (pollFinish h s).2.currentPC = s.currentPC := by
  unfold pollFinish; simp only []; split_ifs <;> simp

@[simp] theorem pollFinish_stepBreakPoint :
    (pollFinish h s).2.stepBreakPoint = s.stepBreakPoint := by
  unfold pollFinish; simp only []; split_ifs <;> simp

@[simp] theorem pollFinish_currentPCBank :
    (pollFinish h s).2.currentPCBank = s.currentPCBank := by
  unfold pollFinish; simp only []; split_ifs <;> simp

@[simp] theorem pollFinish_breakpoints :
    (pollFinish h s).2.breakpoints = s.breakpoints := by
  unfold pollFinish; simp only []; split_ifs <;> simp

@[simp] theorem pollFinish_breakpointsCount :
    (pollFinish h s).2.breakpointsCount = s.breakpointsCount := by
  unfold pollFinish; simp only []; split_ifs <;> simp

@[simp] theorem checkBank_currentMode : (checkBank h s).currentMode = s.currentMode := by
  unfold checkBank; split_ifs <;> rfl

@[simp] theorem checkBank_currentPC : (checkBank h s).currentPC = s.currentPC := by
  unfold checkBank; split_ifs <;> rfl

@[simp] theorem checkBank_stepBreakPoint :
    (checkBank h s).stepBreakPoint = s.stepBreakPoint := by
  unfold checkBank; split_ifs <;> rfl

@[simp] theorem checkBank_breakpoints : (checkBank h s).breakpoints = s.breakpoints := by
  unfold checkBank; split_ifs <;> rfl

@[simp] theorem checkBank_breakpointsCount :
    (checkBank h s).breakpointsCount = s.breakpointsCount := by
  unfold checkBank; split_ifs <;> rfl

@[simp] theorem checkBank_pc : (checkBank h s).pc = s.pc := by
  unfold checkBank; split_ifs <;> rfl

theorem checkBreakKey_idle (hbrk : h.keyBRK = 0) : checkBreakKey h s = s := by
  simp [checkBreakKey, hbrk]

@[simp] theorem checkInit_currentMode : (checkInit s).currentMode = s.currentMode := by
  unfold checkInit; split_ifs <;> rfl

@[simp] theorem checkInit_pc : (checkInit s).pc = s.pc := by
  unfold checkInit; split_ifs <;> rfl

@[simp] theorem checkInit_stepBreakPoint :
    (checkInit s).stepBreakPoint = s.stepBreakPoint := by
  unfold checkInit; split_ifs <;> rfl

@[simp] theorem checkInit_currentPCBank :
    (checkInit s).currentPCBank = s.currentPCBank := by
  unfold checkInit; split_ifs <;> rfl

@[simp] theorem checkInit_breakpoints : (checkInit s).breakpoints = s.breakpoints := by
  unfold checkInit; split_ifs <;> rfl

@[simp] theorem checkInit_breakpointsCount :
    (checkInit s).breakpointsCount = s.breakpointsCount := by
  unfold checkInit; split_ifs <;> rfl

@[simp] theorem checkStep_pc : (checkStep s).pc = s.pc := by
  unfold checkStep; split_ifs <;> rfl

@[simp] theorem checkStep_stepBreakPoint :
    (checkStep s).stepBreakPoint = s.stepBreakPoint := by
  unfold checkStep; split_ifs <;> rfl

@[simp] theorem checkStep_currentPCBank :
    (checkStep s).currentPCBank = s.currentPCBank := by
  unfold checkStep; split_ifs <;> rfl

@[simp] theorem checkStep_breakpoints : (checkStep s).breakpoints = s.breakpoints := by
  unfold checkStep; split_ifs <;> rfl

@[simp] theorem checkStep_breakpointsCount :
    (checkStep s).breakpointsCount = s.breakpointsCount := by
  unfold checkStep; split_ifs <;> rfl

@[simp] theorem checkBreakpoint_pc : (checkBreakpoint s).pc = s.pc := by
  unfold checkBreakpoint; split_ifs <;> rfl

@[simp] theorem checkBreakpoint_currentPCBank :
    (checkBreakpoint s).currentPCBank = s.currentPCBank := by
  unfold checkBreakpoint; split_ifs <;> rfl

@[simp] theorem checkBreakpoint_breakpoints :
    (checkBreakpoint s).breakpoints = s.breakpoints := by
  unfold checkBreakpoint; split_ifs <;> rfl

@[simp] theorem checkBreakpoint_breakpointsCount :
    (checkBreakpoint s).breakpointsCount = s.breakpointsCount := by
  unfold checkBreakpoint; split_ifs <;> rfl

@[simp] theorem checkBreakKey_pc : (checkBreakKey h s).pc = s.pc := by
  unfold checkBreakKey; split_ifs <;> rfl

@[simp] theorem checkBreakKey_stepBreakPoint :
    (checkBreakKey h s).stepBreakPoint = s.stepBreakPoint := by
  unfold checkBreakKey; split_ifs <;> rfl

@[simp] theorem checkBreakKey_currentPCBank :
    (checkBreakKey h s).currentPCBank = s.currentPCBank := by
  unfold checkBreakKey; split_ifs <;> rfl

/-- The breakpoint scan only reads the store. -/
theorem isOnBreakpoint_congr (t : DebugState) (hb : t.breakpoints = s.breakpoints)
    (hc : t.breakpointsCount = s.breakpointsCount) (a : Int) :
    isOnBreakpoint t a = isOnBreakpoint s a := by
  simp [isOnBreakpoint, hb, hc]

/-- The hit test only reads the store, `pc` and the step breakpoint. -/
theorem hitBreakpoint_congr (t : DebugState) (hb : t.breakpoints = s.breakpoints)
    (hc : t.breakpointsCount = s.breakpointsCount) (hp : t.pc = s.pc)
    (hs : t.stepBreakPoint = s.stepBreakPoint) :
    hitBreakpoint t = hitBreakpoint s := by
  simp [hitBreakpoint, isOnBreakpoint, hb, hc, hp, hs]

end Frame

/-! ## The breakpoint scan -/

/-- The scan from `idx` over `n` entries succeeds exactly when one of the
entries `idx .. idx+n-1` is `addr`. -/
theorem isOnBreakpointFrom_iff (bps : List Int) (addr : Int) (n idx : Nat) :
    isOnBreakpointFrom bps addr idx n = true ↔
      ∃ i, idx ≤ i ∧ i < idx + n ∧ bps.getD i 0 = addr := by
  induction n generalizing idx with
  | zero => simp [isOnBreakpointFrom]; intro i hi; omega
  | succ n ih =>
    unfold isOnBreakpointFrom
    by_cases hhd : bps.getD idx 0 = addr
    · simp only [hhd, beq_self_eq_true, if_true, true_iff]
      exact ⟨idx, le_refl _, by omega, hhd⟩
    · have hne : (bps.getD idx 0 == addr) = false := by simpa using hhd
      simp only [hne, Bool.false_eq_true, if_false, ih]
      constructor
      · rintro ⟨i, h1, h2, h3⟩
        exact ⟨i, by omega, by omega, h3⟩
      · rintro ⟨i, h1, h2, h3⟩
        have : i ≠ idx := by
          intro hEq; subst hEq; exact hhd h3
        exact ⟨i, by omega, by omega, h3⟩

/-- An address stored among the first `breakpointsCount` entries is found. -/
theorem isOnBreakpoint_of_stored (s : DebugState) (addr : Int) (i : Nat)
    (hi : (i : Int) < s.breakpointsCount) (hbp : s.breakpoints[i]? = some addr) :
    isOnBreakpoint s addr = true := by
  unfold isOnBreakpoint
  rw [isOnBreakpointFrom_iff]
  refine ⟨i, Nat.zero_le _, by omega, ?_⟩
  simp [List.getD, hbp]

/-! ## The checks made before the input is looked at -/

/-- The hit test is insensitive to the first two checks. -/
theorem hitBreakpoint_checkStep_checkInit (s : DebugState) :
    hitBreakpoint (checkStep (checkInit s)) = hitBreakpoint s :=
  hitBreakpoint_congr s _ (by simp) (by simp) (by simp) (by simp)

/-- Mode after the checks when the break key is not held. -/
theorem pollChecks_currentMode (h : Host) (s : DebugState) (hbrk : h.keyBRK = 0) :
    (pollChecks h s).currentMode =
      if hitBreakpoint s = true then DMode.DMODE_STOP
      else if s.currentMode = .DMODE_STEP then .DMODE_STOP else s.currentMode := by
  unfold pollChecks
  rw [checkBank_currentMode, checkBreakKey_idle h _ hbrk]
  unfold checkBreakpoint
  rw [hitBreakpoint_checkStep_checkInit]
  by_cases hh : hitBreakpoint s = true
  · simp [hh]
  · simp only [hh, if_false, Bool.false_eq_true]
    unfold checkStep
    simp only [checkInit_currentMode]
    split_ifs <;> simp

/-- The step breakpoint after the checks: cleared exactly on a hit. -/
theorem pollChecks_stepBreakPoint (h : Host) (s : DebugState) :
    (pollChecks h s).stepBreakPoint =
      if hitBreakpoint s = true then -1 else s.stepBreakPoint := by
  unfold pollChecks
  rw [checkBank_stepBreakPoint, checkBreakKey_stepBreakPoint]
  unfold checkBreakpoint
  rw [hitBreakpoint_checkStep_checkInit]
  by_cases hh : hitBreakpoint s = true
  · simp [hh]
  · simp [hh]

@[simp] theorem pollChecks_pc (h : Host) (s : DebugState) : (pollChecks h s).pc = s.pc := by
  simp [pollChecks]

@[simp] theorem pollChecks_breakpoints (h : Host) (s : DebugState) :
    (pollChecks h s).breakpoints = s.breakpoints := by
  unfold pollChecks checkBreakKey
  split_ifs <;> simp

@[simp] theorem pollChecks_breakpointsCount (h : Host) (s : DebugState) :
    (pollChecks h s).breakpointsCount = s.breakpointsCount := by
  unfold pollChecks checkBreakKey
  split_ifs <;> simp

/-- The cursor after the checks, when the poll is entered in a mode other
than STOP and the program counter is on a breakpoint or the step breakpoint. -/
theorem pollChecks_currentPC_of_hit (h : Host) (s : DebugState)
    (hmode : s.currentMode ≠ .DMODE_STOP) (hh : hitBreakpoint s = true) :
    (pollChecks h s).currentPC = s.pc := by
  unfold pollChecks
  rw [checkBank_currentPC]
  unfold checkBreakKey
  split_ifs
  · simp
  · unfold checkBreakpoint
    rw [hitBreakpoint_checkStep_checkInit]
    simp only [hh, if_true]
    unfold checkStep
    simp only [checkInit_currentMode, checkInit_pc]
    split_ifs <;> simp_all

/-- The cursor after the checks when the mode was STEP. -/
theorem pollChecks_currentPC_of_step (h : Host) (s : DebugState)
    (hmode : s.currentMode = .DMODE_STEP) :
    (pollChecks h s).currentPC = s.pc := by
  unfold pollChecks
  rw [checkBank_currentPC]
  unfold checkBreakKey
  split_ifs
  · simp
  · unfold checkBreakpoint
    rw [hitBreakpoint_checkStep_checkInit]
    unfold checkStep
    simp only [checkInit_currentMode, checkInit_pc, hmode]
    split_ifs <;> simp_all

/-- A poll that finds the event queue empty. -/
theorem poll_no_events (h : Host) (s : DebugState) (hev : h.events = []) :
    DEBUGGetCurrentStatus h s =
      pollFinish h (if (pollChecks h s).currentMode ≠ .DMODE_RUN then
        { pollChecks h s with showFullDisplay := h.keySHOW } else pollChecks h s) := by
  unfold DEBUGGetCurrentStatus pollInput
  rw [hev]
  split_ifs <;> simp [drainEvents]

/-- Status, mode and cursor of a poll that finds the event queue empty. -/
theorem poll_no_events_result (h : Host) (s : DebugState) (hev : h.events = []) :
    (DEBUGGetCurrentStatus h s).1 =
        (if (pollChecks h s).currentMode = .DMODE_STOP then 1 else 0) ∧
      (DEBUGGetCurrentStatus h s).2.currentMode = (pollChecks h s).currentMode ∧
      (DEBUGGetCurrentStatus h s).2.currentPC = (pollChecks h s).currentPC ∧
      (DEBUGGetCurrentStatus h s).2.stepBreakPoint = (pollChecks h s).stepBreakPoint ∧
      (DEBUGGetCurrentStatus h s).2.currentPCBank = (pollChecks h s).currentPCBank := by
  rw [poll_no_events h s hev, pollFinish_status]
  split_ifs <;> simp

/-! ## C1: a stored breakpoint stops a running CPU -/

/-- C1: in mode RUN, when `pc` is one of the first `breakpointsCount` entries of
the breakpoint array, a poll with the break key up and no queued event returns
1, leaves the mode at STOP and sets the cursor `currentPC` to `pc`. -/
theorem C1_breakpoint_hit_pauses (h : Host) (s : DebugState)
    (hmode : s.currentMode = .DMODE_RUN)
    (i : Nat) (hi : (i : Int) < s.breakpointsCount)
    (hbp : s.breakpoints[i]? = some s.pc)
    (hbrk : h.keyBRK = 0) (hev : h.events = []) :
    (DEBUGGetCurrentStatus h s).1 = 1 ∧
      (DEBUGGetCurrentStatus h s).2.currentMode = .DMODE_STOP ∧
      (DEBUGGetCurrentStatus h s).2.currentPC = s.pc := by
  have hon : isOnBreakpoint s s.pc = true := isOnBreakpoint_of_stored s s.pc i hi hbp
  have hcnt : s.breakpointsCount ≠ 0 := by omega
  have hhit : hitBreakpoint s = true := by simp [hitBreakpoint, hon, hcnt]
  have hm : (pollChecks h s).currentMode = .DMODE_STOP := by
    rw [pollChecks_currentMode h s hbrk]; simp [hhit]
  have hpc : (pollChecks h s).currentPC = s.pc :=
    pollChecks_currentPC_of_hit h s (by simp [hmode]) hhit
  obtain ⟨h1, h2, h3, -, -⟩ := poll_no_events_result h s hev
  rw [h1, h2, h3, hm, hpc]
  simp

/-- C1 at the scenario of the specification. -/
theorem C1_breakpoint_hit_pauses_witness :
    (DEBUGGetCurrentStatus idleHost scenarioBreakpoint).1 = 1 ∧
      (DEBUGGetCurrentStatus idleHost scenarioBreakpoint).2.currentMode = .DMODE_STOP ∧
      (DEBUGGetCurrentStatus idleHost scenarioBreakpoint).2.currentPC = 0x810D :=
  C1_breakpoint_hit_pauses idleHost scenarioBreakpoint rfl 0 (by decide) rfl rfl rfl

/-! ## C2: step-over on a call -/

/-- A poll whose checks leave the mode at RUN does not look at the input. -/
theorem poll_running (h : Host) (s : DebugState)
    (hrun : (pollChecks h s).currentMode = .DMODE_RUN) :
    DEBUGGetCurrentStatus h s = pollFinish h (pollChecks h s) := by
  unfold DEBUGGetCurrentStatus pollInput
  simp [hrun]

/-- The hit test in terms of the scan and the step breakpoint. -/
theorem hitBreakpoint_eq_false_iff (s : DebugState) :
    hitBreakpoint s = false ↔
      isOnBreakpoint s s.pc = false ∧ s.pc ≠ s.stepBreakPoint := by
  unfold hitBreakpoint
  by_cases hc : s.breakpointsCount = 0
  · have : isOnBreakpoint s s.pc = false := by
      simp [isOnBreakpoint, hc, isOnBreakpointFrom]
    simp [hc, this]
  · simp [hc]

/-- While running, a poll away from every breakpoint and from the target, with
the break key up, returns 0 and keeps mode, target and store. -/
theorem poll_run_no_hit (h : Host) (s : DebugState)
    (hmode : s.currentMode = .DMODE_RUN) (hbrk : h.keyBRK = 0)
    (hno : hitBreakpoint s = false) :
    (DEBUGGetCurrentStatus h s).1 = 0 ∧
      (DEBUGGetCurrentStatus h s).2.currentMode = .DMODE_RUN ∧
      (DEBUGGetCurrentStatus h s).2.stepBreakPoint = s.stepBreakPoint ∧
      (DEBUGGetCurrentStatus h s).2.breakpoints = s.breakpoints ∧
      (DEBUGGetCurrentStatus h s).2.breakpointsCount = s.breakpointsCount := by
  have hm : (pollChecks h s).currentMode = .DMODE_RUN := by
    rw [pollChecks_currentMode h s hbrk]; simp [hno, hmode]
  have hs : (pollChecks h s).stepBreakPoint = s.stepBreakPoint := by
    rw [pollChecks_stepBreakPoint]; simp [hno]
  rw [poll_running h s hm, pollFinish_status]
  simp [hm, hs]

/-- A run of polls that never meets a breakpoint, the target or the break key
returns 0 every time and keeps the mode at RUN and the target armed. -/
theorem pollSequence_running (polls : List (Host × Int)) (s : DebugState)
    (hmode : s.currentMode = .DMODE_RUN)
    (hq : ∀ q ∈ polls, q.1.keyBRK = 0 ∧ q.2 ≠ s.stepBreakPoint ∧
      isOnBreakpoint s q.2 = false) :
    (pollSequence polls s).1 = List.replicate polls.length 0 ∧
      (pollSequence polls s).2.currentMode = .DMODE_RUN ∧
      (pollSequence polls s).2.stepBreakPoint = s.stepBreakPoint := by
  induction polls generalizing s with
  | nil => simp [pollSequence, hmode]
  | cons q rest ih =>
    obtain ⟨hq1, hq2, hq3⟩ := hq q (List.mem_cons_self _ _)
    have hno : hitBreakpoint { s with pc := q.2 } = false := by
      rw [hitBreakpoint_eq_false_iff]
      refine ⟨?_, hq2⟩
      rw [← hq3]
      exact isOnBreakpoint_congr s _ rfl rfl _
    obtain ⟨p1, p2, p3, p4, p5⟩ := poll_run_no_hit q.1 { s with pc := q.2 } hmode hq1 hno
    have hrest := ih (DEBUGGetCurrentStatus q.1 { s with pc := q.2 }).2 p2 (by
      intro r hr
      obtain ⟨r1, r2, r3⟩ := hq r (List.mem_cons_of_mem _ hr)
      refine ⟨r1, ?_, ?_⟩
      · rw [p3]; exact r2
      · rw [← r3]; exact isOnBreakpoint_congr s _ p4 p5 _)
    obtain ⟨i1, i2, i3⟩ := hrest
    obtain ⟨qh, qp⟩ := q
    simp only [pollSequence, List.length_cons, List.replicate_succ]
    refine ⟨?_, i2, ?_⟩
    · rw [i1, p1]
    · rw [i3, p3]

/-- C2 as stated fails: after StepOver on a JSR at 0x8000 (target 0x8003), the
poll at 0x9000, which is not the target but is a stored breakpoint, returns 1
instead of 0, stops, and clears the target before it was ever reached. -/
theorem C2_counterexample :
    jsrHost.real_read6502 scenarioStepOver.pc = 0x20 ∧
      (DEBUGHandleKeyEvent jsrHost .SDLK_F10 0 scenarioStepOver).stepBreakPoint = 0x8003 ∧
      (0x9000 : Int) ≠ 0x8003 ∧
      (DEBUGGetCurrentStatus idleHost
        { DEBUGHandleKeyEvent jsrHost .SDLK_F10 0 scenarioStepOver with pc := 0x9000 }).1 = 1 ∧
      (DEBUGGetCurrentStatus idleHost
        { DEBUGHandleKeyEvent jsrHost .SDLK_F10 0 scenarioStepOver with
          pc := 0x9000 }).2.stepBreakPoint = -1 := by
  decide

/-- C2 (amended): when the opcode at `pc` is 0x20, the StepOver key arms
`stepBreakPoint = pc + 3` and sets the mode to RUN; then every sequence of polls
made with the break key up, at program counters that are neither the target nor
a stored breakpoint, returns 0 throughout with the mode still RUN and the target
still armed; and the next poll at the target, finding no queued event, returns 1
with the mode at STOP and `stepBreakPoint = -1`. -/
theorem C2_step_over_call (h : Host) (s : DebugState) (isShift : Int)
    (hop : h.real_read6502 s.pc = 0x20) :
    (DEBUGHandleKeyEvent h .SDLK_F10 isShift s).stepBreakPoint = s.pc + 3 ∧
      (DEBUGHandleKeyEvent h .SDLK_F10 isShift s).currentMode = .DMODE_RUN ∧
      ∀ polls : List (Host × Int),
        (∀ q ∈ polls, q.1.keyBRK = 0 ∧ q.2 ≠ s.pc + 3 ∧
          isOnBreakpoint (DEBUGHandleKeyEvent h .SDLK_F10 isShift s) q.2 = false) →
        (pollSequence polls (DEBUGHandleKeyEvent h .SDLK_F10 isShift s)).1 =
            List.replicate polls.length 0 ∧
          (pollSequence polls (DEBUGHandleKeyEvent h .SDLK_F10 isShift s)).2.currentMode =
            .DMODE_RUN ∧
          (pollSequence polls (DEBUGHandleKeyEvent h .SDLK_F10 isShift s)).2.stepBreakPoint =
            s.pc + 3 ∧
          ∀ hl : Host, hl.events = [] →
            (DEBUGGetCurrentStatus hl
              { (pollSequence polls (DEBUGHandleKeyEvent h .SDLK_F10 isShift s)).2 with
                pc := s.pc + 3 }).1 = 1 ∧
            (DEBUGGetCurrentStatus hl
              { (pollSequence polls (DEBUGHandleKeyEvent h .SDLK_F10 isShift s)).2 with
                pc := s.pc + 3 }).2.currentMode = .DMODE_STOP ∧
            (DEBUGGetCurrentStatus hl
              { (pollSequence polls (DEBUGHandleKeyEvent h .SDLK_F10 isShift s)).2 with
                pc := s.pc + 3 }).2.stepBreakPoint = -1 := by
  have hs : (DEBUGHandleKeyEvent h .SDLK_F10 isShift s).stepBreakPoint = s.pc + 3 := by
    simp [DEBUGHandleKeyEvent, hop]
  have hm : (DEBUGHandleKeyEvent h .SDLK_F10 isShift s).currentMode = .DMODE_RUN := by
    simp [DEBUGHandleKeyEvent, hop]
  refine ⟨hs, hm, ?_⟩
  intro polls hq
  obtain ⟨r1, r2, r3⟩ := pollSequence_running polls _ hm (by rw [hs]; exact hq)
  rw [hs] at r3
  refine ⟨r1, r2, r3, ?_⟩
  intro hl hev
  generalize pollSequence polls (DEBUGHandleKeyEvent h .SDLK_F10 isShift s) = r at r2 r3
  have hhit : hitBreakpoint { r.2 with pc := s.pc + 3 } = true := by
    simp [hitBreakpoint, r3]
  obtain ⟨e1, e2, -, e4, -⟩ := poll_no_events_result hl { r.2 with pc := s.pc + 3 } hev
  have hstop : (pollChecks hl { r.2 with pc := s.pc + 3 }).currentMode = .DMODE_STOP := by
    unfold pollChecks
    rw [checkBank_currentMode]
    unfold checkBreakKey
    split_ifs
    · rfl
    · unfold checkBreakpoint
      rw [hitBreakpoint_checkStep_checkInit]
      simp [hhit]
  rw [e1, e2, e4, hstop, pollChecks_stepBreakPoint]
  simp [hhit]

/-- C2 (amended) at a concrete run: StepOver on a JSR at 0x8000, two polls
inside the subroutine, then the poll at 0x8003. -/
theorem C2_step_over_call_witness :
    (pollSequence [(idleHost, 0x9100), (idleHost, 0x9101)]
        (DEBUGHandleKeyEvent jsrHost .SDLK_F10 0 scenarioStepOver)).1 = [0, 0] ∧
      (DEBUGGetCurrentStatus idleHost
        { (pollSequence [(idleHost, 0x9100), (idleHost, 0x9101)]
            (DEBUGHandleKeyEvent jsrHost .SDLK_F10 0 scenarioStepOver)).2 with
          pc := 0x8000 + 3 }).1 = 1 :=
  have key := (C2_step_over_call jsrHost scenarioStepOver 0 rfl).2.2
    [(idleHost, 0x9100), (idleHost, 0x9101)] (by decide)
  ⟨key.1, (key.2.2.2 idleHost rfl).1⟩

/-! ## The event loop -/

/-- The loop leaves through `return -1` exactly when a quit event is queued. -/
theorem drainEvents_fst (h : Host) (evs : List SDL_Event) (s : DebugState) :
    (drainEvents h evs s).1 = decide (SDL_Event.SDL_QUIT ∈ evs) := by
  induction evs generalizing s with
  | nil => simp [drainEvents]
  | cons e rest ih =>
    cases e <;> simp [drainEvents, ih]

/-- Events queued behind a quit event are never handled. -/
theorem drainEvents_quit (h : Host) (pre post : List SDL_Event) (s : DebugState) :
    drainEvents h (pre ++ SDL_Event.SDL_QUIT :: post) s = (true, (drainEvents h pre s).2) := by
  induction pre generalizing s with
  | nil => simp [drainEvents]
  | cons e rest ih =>
    cases e <;> simp [drainEvents, ih]

/-- Without a quit event the loop handles the whole queue in order. -/
theorem drainEvents_no_quit (h : Host) (evs : List SDL_Event) (s : DebugState)
    (hq : SDL_Event.SDL_QUIT ∉ evs) :
    drainEvents h evs s = (false, applyEvents h evs s) := by
  induction evs generalizing s with
  | nil => simp [drainEvents, applyEvents]
  | cons e rest ih =>
    have hrest : SDL_Event.SDL_QUIT ∉ rest := fun hm => hq (List.mem_cons_of_mem _ hm)
    cases e with
    | SDL_QUIT => exact absurd (List.mem_cons_self _ _) hq
    | SDL_KEYDOWN sym sh => simpa [drainEvents, applyEvents] using ih _ hrest
    | SDL_MOUSEMOTION w x y => simpa [drainEvents, applyEvents] using ih _ hrest
    | SDL_MOUSEWHEEL w y => simpa [drainEvents, applyEvents] using ih _ hrest
    | SDL_OTHEREVENT ty => simpa [drainEvents, applyEvents] using ih _ hrest

/-- A queue split at a point before which no quit event occurs. -/
theorem drainEvents_append (h : Host) (pre post : List SDL_Event) (s : DebugState)
    (hq : SDL_Event.SDL_QUIT ∉ pre) :
    drainEvents h (pre ++ post) s = drainEvents h post (applyEvents h pre s) := by
  induction pre generalizing s with
  | nil => simp [applyEvents]
  | cons e rest ih =>
    have hrest : SDL_Event.SDL_QUIT ∉ rest := fun hm => hq (List.mem_cons_of_mem _ hm)
    cases e with
    | SDL_QUIT => exact absurd (List.mem_cons_self _ _) hq
    | SDL_KEYDOWN sym sh => simpa [drainEvents, applyEvents] using ih _ hrest
    | SDL_MOUSEMOTION w x y => simpa [drainEvents, applyEvents] using ih _ hrest
    | SDL_MOUSEWHEEL w y => simpa [drainEvents, applyEvents] using ih _ hrest
    | SDL_OTHEREVENT ty => simpa [drainEvents, applyEvents] using ih _ hrest

@[simp] theorem handleMouseMotion_currentMode (w : Nat) (x y : Int) (s : DebugState) :
    (handleMouseMotion w x y s).currentMode = s.currentMode := by
  unfold handleMouseMotion; split_ifs <;> rfl

@[simp] theorem handleMouseWheel_currentMode (w : Nat) (y : Int) (s : DebugState) :
    (handleMouseWheel w y s).currentMode = s.currentMode := by
  unfold handleMouseWheel; dsimp only; split_ifs <;> rfl

/-- An event that is not a Run, StepOver or StepInto key leaves the mode alone,
provided the console and the `bp` command do. -/
theorem handleEvent_currentMode (h : Host) (e : SDL_Event) (s : DebugState)
    (hcon : ∀ e t, (h.CON_Events e t).currentMode = t.currentMode)
    (hbp : ∀ a t, (h.cmd_bp a t).currentMode = t.currentMode)
    (he : isModeKey e = false) :
    (handleEvent h e s).currentMode = s.currentMode := by
  unfold handleEvent
  rw [hcon]
  cases e with
  | SDL_QUIT => rfl
  | SDL_KEYDOWN sym sh =>
    cases sym <;> simp_all [isModeKey, DEBUGHandleKeyEvent, DEBUGSetBreakPoint]
  | SDL_MOUSEMOTION w x y => simp
  | SDL_MOUSEWHEEL w y => simp
  | SDL_OTHEREVENT ty => rfl

/-- A queue without Run, StepOver or StepInto keys leaves the mode alone. -/
theorem drainEvents_currentMode (h : Host) (evs : List SDL_Event) (s : DebugState)
    (hcon : ∀ e t, (h.CON_Events e t).currentMode = t.currentMode)
    (hbp : ∀ a t, (h.cmd_bp a t).currentMode = t.currentMode)
    (he : ∀ e ∈ evs, isModeKey e = false) :
    (drainEvents h evs s).2.currentMode = s.currentMode := by
  induction evs generalizing s with
  | nil => simp [drainEvents]
  | cons e rest ih =>
    have hrest : ∀ e ∈ rest, isModeKey e = false :=
      fun e hm => he e (List.mem_cons_of_mem _ hm)
    have hhd := handleEvent_currentMode h e s hcon hbp (he e (List.mem_cons_self _ _))
    cases e with
    | SDL_QUIT => simp [drainEvents]
    | SDL_KEYDOWN sym sh => simp only [drainEvents]; rw [ih _ hrest, hhd]
    | SDL_MOUSEMOTION w x y => simp only [drainEvents]; rw [ih _ hrest, hhd]
    | SDL_MOUSEWHEEL w y => simp only [drainEvents]; rw [ih _ hrest, hhd]
    | SDL_OTHEREVENT ty => simp only [drainEvents]; rw [ih _ hrest, hhd]

/-- The checks never leave STEP or STOP for anything but STOP. -/
theorem pollChecks_stop_of_ne_run (h : Host) (s : DebugState)
    (hmode : s.currentMode ≠ .DMODE_RUN) :
    (pollChecks h s).currentMode = .DMODE_STOP := by
  unfold pollChecks
  rw [checkBank_currentMode]
  unfold checkBreakKey
  split_ifs
  · rfl
  · unfold checkBreakpoint
    by_cases hh : hitBreakpoint (checkStep (checkInit s)) = true
    · simp [hh]
    · simp only [hh, if_false, Bool.false_eq_true]
      unfold checkStep
      simp only [checkInit_currentMode]
      split_ifs
      · rfl
      · cases hm : s.currentMode <;> simp_all

/-! ## C3: step-into executes exactly one instruction -/

/-- Draining a queue whose last mode-changing action is a StepInto key. -/
theorem drainEvents_stepInto (h : Host) (s : DebugState)
    (pre post : List SDL_Event) (isShift : Int)
    (hpre : SDL_Event.SDL_QUIT ∉ pre) (hpostq : SDL_Event.SDL_QUIT ∉ post)
    (hpost : ∀ e ∈ post, isModeKey e = false)
    (hcon : ∀ e t, (h.CON_Events e t).currentMode = t.currentMode)
    (hbp : ∀ a t, (h.cmd_bp a t).currentMode = t.currentMode) :
    (drainEvents h (pre ++ SDL_Event.SDL_KEYDOWN .SDLK_F11 isShift :: post) s).1 = false ∧
      (drainEvents h (pre ++ SDL_Event.SDL_KEYDOWN .SDLK_F11 isShift :: post) s).2.currentMode =
        .DMODE_STEP := by
  rw [drainEvents_append h pre _ s hpre]
  simp only [drainEvents]
  constructor
  · rw [drainEvents_fst]; simpa using hpostq
  · rw [drainEvents_currentMode h post _ hcon hbp hpost]
    simp [handleEvent, hcon, DEBUGHandleKeyEvent]

/-- C3: from a stopped state, a poll whose queue holds a StepInto key (F11)
followed by no quit event and no further Run/StepOver/StepInto key returns 0 and
leaves the mode at STEP; the very next poll, at any program counter `p` and with
no queued event, returns 1 with the mode at STOP and the cursor `currentPC = p`.
The console and the `bp` command are assumed not to assign `currentMode`. -/
theorem C3_step_into_one_instruction (h : Host) (s : DebugState)
    (pre post : List SDL_Event) (isShift : Int)
    (hstop : s.currentMode = .DMODE_STOP)
    (hev : h.events = pre ++ SDL_Event.SDL_KEYDOWN .SDLK_F11 isShift :: post)
    (hpre : SDL_Event.SDL_QUIT ∉ pre) (hpostq : SDL_Event.SDL_QUIT ∉ post)
    (hpost : ∀ e ∈ post, isModeKey e = false)
    (hcon : ∀ e t, (h.CON_Events e t).currentMode = t.currentMode)
    (hbp : ∀ a t, (h.cmd_bp a t).currentMode = t.currentMode) :
    (DEBUGGetCurrentStatus h s).1 = 0 ∧
      (DEBUGGetCurrentStatus h s).2.currentMode = .DMODE_STEP ∧
      ∀ (h2 : Host) (p : Int), h2.events = [] →
        (DEBUGGetCurrentStatus h2 { (DEBUGGetCurrentStatus h s).2 with pc := p }).1 = 1 ∧
        (DEBUGGetCurrentStatus h2
          { (DEBUGGetCurrentStatus h s).2 with pc := p }).2.currentMode = .DMODE_STOP ∧
        (DEBUGGetCurrentStatus h2
          { (DEBUGGetCurrentStatus h s).2 with pc := p }).2.currentPC = p := by
  have hm : (pollChecks h s).currentMode = .DMODE_STOP :=
    pollChecks_stop_of_ne_run h s (by simp [hstop])
  have hin : pollInput h (pollChecks h s) =
      drainEvents h (pre ++ SDL_Event.SDL_KEYDOWN .SDLK_F11 isShift :: post)
        { pollChecks h s with showFullDisplay := h.keySHOW } := by
    simp [pollInput, hm, hev]
  obtain ⟨d1, d2⟩ := drainEvents_stepInto h
    { pollChecks h s with showFullDisplay := h.keySHOW } pre post isShift hpre hpostq hpost hcon hbp
  rw [← hin] at d1 d2
  have hres : DEBUGGetCurrentStatus h s = pollFinish h (pollInput h (pollChecks h s)).2 := by
    simp [DEBUGGetCurrentStatus, d1]
  have hstep : (DEBUGGetCurrentStatus h s).2.currentMode = .DMODE_STEP := by
    rw [hres, pollFinish_currentMode, d2]
  refine ⟨?_, hstep, ?_⟩
  · rw [hres, pollFinish_status, d2]; simp
  · intro h2 p hev2
    have hstep2 : ({ (DEBUGGetCurrentStatus h s).2 with pc := p } : DebugState).currentMode =
        .DMODE_STEP := hstep
    obtain ⟨e1, e2, e3, -, -⟩ :=
      poll_no_events_result h2 { (DEBUGGetCurrentStatus h s).2 with pc := p } hev2
    rw [e1, e2, e3, pollChecks_stop_of_ne_run h2 _ (by rw [hstep2]; decide),
      pollChecks_currentPC_of_step h2 _ hstep2]
    simp

/-- C3 at a concrete run: stopped at 0x8000, the queue holds a scroll, F11 and a
bank-page key; the host then executes one instruction and polls at 0x8003. -/
theorem C3_step_into_one_instruction_witness :
    (DEBUGGetCurrentStatus stepIntoHost scenarioStopped).1 = 0 ∧
      (DEBUGGetCurrentStatus idleHost
        { (DEBUGGetCurrentStatus stepIntoHost scenarioStopped).2 with pc := 0x8003 }).1 = 1 ∧
      (DEBUGGetCurrentStatus idleHost
        { (DEBUGGetCurrentStatus stepIntoHost scenarioStopped).2 with
          pc := 0x8003 }).2.currentPC = 0x8003 :=
  have key := C3_step_into_one_instruction stepIntoHost scenarioStopped
    [.SDL_MOUSEWHEEL 1 1] [.SDL_KEYDOWN .SDLK_KP_PLUS 0] 0 rfl rfl (by decide) (by decide)
    (by decide) (fun _ _ => rfl) (fun _ _ => rfl)
  ⟨key.1, (key.2.2 idleHost 0x8003 rfl).1, (key.2.2 idleHost 0x8003 rfl).2.2⟩

/-! ## C4: when the poll returns Continue -/

/-- C4 as stated fails in both directions: stopped with a Run key queued the
poll returns 0 although the mode was not RUN, and running away from every
breakpoint with the break key held the poll returns 1. -/
theorem C4_counterexample :
    scenarioStopped.currentMode ≠ .DMODE_RUN ∧
      (DEBUGGetCurrentStatus runKeyHost scenarioStopped).1 = 0 ∧
      initialState.currentMode = .DMODE_RUN ∧
      isOnBreakpoint initialState initialState.pc = false ∧
      initialState.pc ≠ initialState.stepBreakPoint ∧
      (DEBUGGetCurrentStatus breakKeyHost initialState).1 = 1 := by
  decide

/-- C4 (amended): with the break key up and a queue holding no Run, StepOver or
StepInto key, the poll returns 0 if and only if the mode is RUN and `pc` is
neither a stored breakpoint nor the step breakpoint; in every other case it
returns -1 when a quit event is queued and 1 otherwise.  The console and the
`bp` command are assumed not to assign `currentMode`. -/
theorem C4_continue_iff (h : Host) (s : DebugState)
    (hbrk : h.keyBRK = 0)
    (hkeys : ∀ e ∈ h.events, isModeKey e = false)
    (hcon : ∀ e t, (h.CON_Events e t).currentMode = t.currentMode)
    (hbp : ∀ a t, (h.cmd_bp a t).currentMode = t.currentMode) :
    ((DEBUGGetCurrentStatus h s).1 = 0 ↔
        (s.currentMode = .DMODE_RUN ∧ isOnBreakpoint s s.pc = false ∧
          s.pc ≠ s.stepBreakPoint)) ∧
      (¬ (s.currentMode = .DMODE_RUN ∧ isOnBreakpoint s s.pc = false ∧
          s.pc ≠ s.stepBreakPoint) →
        (DEBUGGetCurrentStatus h s).1 =
          if SDL_Event.SDL_QUIT ∈ h.events then -1 else 1) := by
  have hother : ¬ (s.currentMode = .DMODE_RUN ∧ isOnBreakpoint s s.pc = false ∧
      s.pc ≠ s.stepBreakPoint) →
      (DEBUGGetCurrentStatus h s).1 = if SDL_Event.SDL_QUIT ∈ h.events then -1 else 1 := by
    intro hn
    rw [← hitBreakpoint_eq_false_iff] at hn
    have hm : (pollChecks h s).currentMode = .DMODE_STOP := by
      rw [pollChecks_currentMode h s hbrk]
      by_cases hh : hitBreakpoint s = true
      · simp [hh]
      · have hh2 : hitBreakpoint s = false := by simpa using hh
        have hr : s.currentMode ≠ .DMODE_RUN := fun hr => hn ⟨hr, hh2⟩
        cases hcm : s.currentMode <;> simp_all
    have hin : pollInput h (pollChecks h s) =
        drainEvents h h.events { pollChecks h s with showFullDisplay := h.keySHOW } := by
      simp [pollInput, hm]
    have d1 := drainEvents_fst h h.events { pollChecks h s with showFullDisplay := h.keySHOW }
    have d2 := drainEvents_currentMode h h.events
      { pollChecks h s with showFullDisplay := h.keySHOW } hcon hbp hkeys
    rw [← hin] at d1 d2
    unfold DEBUGGetCurrentStatus
    by_cases hq : SDL_Event.SDL_QUIT ∈ h.events
    · simp only [d1, hq, decide_True, if_true]
    · simp only [d1, hq, decide_False, if_false, Bool.false_eq_true]
      rw [pollFinish_status, d2]
      simp [hm]
  refine ⟨⟨?_, ?_⟩, hother⟩
  · intro h0
    by_contra hn
    have h1 := hother hn
    rw [h0] at h1
    split_ifs at h1
    all_goals omega
  · rintro ⟨hr, hb⟩
    rw [← hitBreakpoint_eq_false_iff] at hb
    exact (poll_run_no_hit h s hr hbrk hb).1

/-- C4 (amended) at concrete polls: running away from every breakpoint gives 0;
stopped with a pointer motion and a quit event queued gives -1. -/
theorem C4_continue_iff_witness :
    (DEBUGGetCurrentStatus idleHost initialState).1 = 0 ∧
      (DEBUGGetCurrentStatus motionQuitHost scenarioStopped).1 = -1 :=
  ⟨(C4_continue_iff idleHost initialState rfl (by decide)
      (fun _ _ => rfl) (fun _ _ => rfl)).1.2 (by decide),
    (C4_continue_iff motionQuitHost scenarioStopped rfl (by decide)
      (fun _ _ => rfl) (fun _ _ => rfl)).2 (by decide)⟩

/-! ## C5: quit is terminal -/

/-- C5: when the mode is not RUN after the checks and the queue holds a quit
event, the poll returns -1 whatever precedes the quit event (a Run key included),
and the state it leaves is the one produced by the events before the quit event
alone: nothing queued behind it is applied. -/
theorem C5_quit_terminal (h : Host) (s : DebugState) (pre post : List SDL_Event)
    (hmode : (pollChecks h s).currentMode ≠ .DMODE_RUN)
    (hev : h.events = pre ++ SDL_Event.SDL_QUIT :: post) :
    (DEBUGGetCurrentStatus h s).1 = -1 ∧
      (DEBUGGetCurrentStatus h s).2 =
        (drainEvents h pre { pollChecks h s with showFullDisplay := h.keySHOW }).2 := by
  have hin : pollInput h (pollChecks h s) =
      (true, (drainEvents h pre { pollChecks h s with showFullDisplay := h.keySHOW }).2) := by
    unfold pollInput
    rw [if_pos hmode, hev, drainEvents_quit]
  unfold DEBUGGetCurrentStatus
  simp [hin]

/-- C5 at a concrete poll: stopped, with Run, quit and StepInto queued, the poll
returns -1 and the mode is RUN as the Run key left it, not STEP. -/
theorem C5_quit_terminal_witness :
    (DEBUGGetCurrentStatus quitHost scenarioStopped).1 = -1 ∧
      (DEBUGGetCurrentStatus quitHost scenarioStopped).2.currentMode = .DMODE_RUN :=
  have key := C5_quit_terminal quitHost scenarioStopped
    [.SDL_KEYDOWN .SDLK_F5 0] [.SDL_KEYDOWN .SDLK_F11 0] (by decide) rfl
  ⟨key.1, by rw [key.2]; decide⟩

/-! ## C7: the bank resolution rule -/

/-- C7: a poll entered with the cursor bank unresolved (negative) and finding no
queued event ends with `currentPCBank` equal to the active RAM bank when its
cursor is in `[0xA000, 0xC000)`, to the active ROM bank when its cursor is at or
above 0xC000, and with the bank still as it was when its cursor is below 0xA000;
the GoToPC key (F1) moves the cursor to `pc` and resolves the bank to the RAM
bank when `pc < 0xC000` and to the ROM bank otherwise. -/
theorem C7_bank_resolution (h : Host) (s : DebugState) (isShift : Int) :
    (h.events = [] → s.currentPCBank < 0 →
        ((DEBUGGetCurrentStatus h s).2.currentPC ≥ 0xA000 →
          (DEBUGGetCurrentStatus h s).2.currentPCBank =
            if (DEBUGGetCurrentStatus h s).2.currentPC < 0xC000 then h.ram_bank
            else h.rom_bank) ∧
        ((DEBUGGetCurrentStatus h s).2.currentPC < 0xA000 →
          (DEBUGGetCurrentStatus h s).2.currentPCBank = s.currentPCBank)) ∧
      (DEBUGHandleKeyEvent h .SDLK_F1 isShift s).currentPC = s.pc ∧
      (DEBUGHandleKeyEvent h .SDLK_F1 isShift s).currentPCBank =
        if s.pc < 0xC000 then h.ram_bank else h.rom_bank := by
  refine ⟨?_, rfl, rfl⟩
  intro hev hneg
  obtain ⟨-, -, e3, -, e5⟩ := poll_no_events_result h s hev
  rw [e3, e5]
  unfold pollChecks
  generalize hu : checkBreakKey h (checkBreakpoint (checkStep (checkInit s))) = u
  have hub : u.currentPCBank = s.currentPCBank := by
    rw [← hu]; simp
  rw [checkBank_currentPC]
  unfold checkBank
  constructor
  · intro hge
    rw [if_pos ⟨by rw [hub]; exact hneg, hge⟩]
  · intro hlt
    rw [if_neg (by intro hc; have := hc.2; omega)]
    exact hub

/-- C7 at concrete polls: an unresolved cursor at 0xA100 resolves to the RAM
bank 5, and an unresolved cursor at 0x8000 stays unresolved. -/
theorem C7_bank_resolution_witness :
    (DEBUGGetCurrentStatus bankHost scenarioBanked).2.currentPCBank = 5 ∧
      (DEBUGGetCurrentStatus bankHost scenarioStopped).2.currentPCBank = -1 :=
  ⟨(((C7_bank_resolution bankHost scenarioBanked 0).1 rfl (by decide)).1 (by decide)).trans
      (by decide),
    ((C7_bank_resolution bankHost scenarioStopped 0).1 rfl (by decide)).2 (by decide)⟩

/-! ## C8: the resolved bank is stable -/

@[simp] theorem handleMouseMotion_currentPCBank (w : Nat) (x y : Int) (s : DebugState) :
    (handleMouseMotion w x y s).currentPCBank = s.currentPCBank := by
  unfold handleMouseMotion; split_ifs <;> rfl

@[simp] theorem handleMouseWheel_currentPCBank (w : Nat) (y : Int) (s : DebugState) :
    (handleMouseWheel w y s).currentPCBank = s.currentPCBank := by
  unfold handleMouseWheel; dsimp only; split_ifs <;> rfl

/-- An event other than GoToPC and ResetCPU leaves the cursor bank alone. -/
theorem handleEvent_currentPCBank (h : Host) (e : SDL_Event) (s : DebugState)
    (hcon : ∀ e t, (h.CON_Events e t).currentPCBank = t.currentPCBank)
    (hbp : ∀ a t, (h.cmd_bp a t).currentPCBank = t.currentPCBank)
    (he : isRelocateKey e = false) :
    (handleEvent h e s).currentPCBank = s.currentPCBank := by
  unfold handleEvent
  rw [hcon]
  cases e with
  | SDL_QUIT => rfl
  | SDL_KEYDOWN sym sh =>
    cases sym
    case SDLK_F10 =>
      simp only [DEBUGHandleKeyEvent]
      split_ifs <;> rfl
    all_goals simp_all [isRelocateKey, DEBUGHandleKeyEvent, DEBUGSetBreakPoint]
  | SDL_MOUSEMOTION w x y => simp
  | SDL_MOUSEWHEEL w y => simp
  | SDL_OTHEREVENT ty => rfl

/-- A queue without GoToPC and ResetCPU keys leaves the cursor bank alone. -/
theorem drainEvents_currentPCBank (h : Host) (evs : List SDL_Event) (s : DebugState)
    (hcon : ∀ e t, (h.CON_Events e t).currentPCBank = t.currentPCBank)
    (hbp : ∀ a t, (h.cmd_bp a t).currentPCBank = t.currentPCBank)
    (he : ∀ e ∈ evs, isRelocateKey e = false) :
    (drainEvents h evs s).2.currentPCBank = s.currentPCBank := by
  induction evs generalizing s with
  | nil => simp [drainEvents]
  | cons e rest ih =>
    have hrest : ∀ e ∈ rest, isRelocateKey e = false :=
      fun e hm => he e (List.mem_cons_of_mem _ hm)
    have hhd := handleEvent_currentPCBank h e s hcon hbp (he e (List.mem_cons_self _ _))
    cases e with
    | SDL_QUIT => simp [drainEvents]
    | SDL_KEYDOWN sym sh => simp only [drainEvents]; rw [ih _ hrest, hhd]
    | SDL_MOUSEMOTION w x y => simp only [drainEvents]; rw [ih _ hrest, hhd]
    | SDL_MOUSEWHEEL w y => simp only [drainEvents]; rw [ih _ hrest, hhd]
    | SDL_OTHEREVENT ty => simp only [drainEvents]; rw [ih _ hrest, hhd]

/-- The checks leave a resolved cursor bank alone. -/
theorem pollChecks_currentPCBank_resolved (h : Host) (s : DebugState)
    (hres : 0 ≤ s.currentPCBank) :
    (pollChecks h s).currentPCBank = s.currentPCBank := by
  unfold pollChecks
  generalize hu : checkBreakKey h (checkBreakpoint (checkStep (checkInit s))) = u
  have hub : u.currentPCBank = s.currentPCBank := by
    rw [← hu]; simp
  unfold checkBank
  rw [if_neg (by intro hc; have := hc.1; omega)]
  exact hub

/-- One poll without GoToPC and ResetCPU keys leaves a resolved bank alone. -/
theorem poll_currentPCBank_resolved (h : Host) (s : DebugState)
    (hres : 0 ≤ s.currentPCBank)
    (hcon : ∀ e t, (h.CON_Events e t).currentPCBank = t.currentPCBank)
    (hbp : ∀ a t, (h.cmd_bp a t).currentPCBank = t.currentPCBank)
    (he : ∀ e ∈ h.events, isRelocateKey e = false) :
    (DEBUGGetCurrentStatus h s).2.currentPCBank = s.currentPCBank := by
  have hin : (pollInput h (pollChecks h s)).2.currentPCBank = s.currentPCBank := by
    unfold pollInput
    split_ifs
    · rw [drainEvents_currentPCBank h h.events _ hcon hbp he]
      exact pollChecks_currentPCBank_resolved h s hres
    · exact pollChecks_currentPCBank_resolved h s hres
  unfold DEBUGGetCurrentStatus
  dsimp only
  split_ifs
  · exact hin
  · simpa using hin

/-- C8: once `currentPCBank` is resolved (non-negative), every sequence of polls
whose queues hold no GoToPC and no ResetCPU key leaves it unchanged, whatever
the program counters reached, the keys held, the scrolling and the active RAM
and ROM banks reported at each poll.  The console and the `bp` command are
assumed not to assign `currentPCBank`. -/
theorem C8_bank_stable (polls : List (Host × Int)) (s : DebugState)
    (hres : 0 ≤ s.currentPCBank)
    (hq : ∀ q ∈ polls, (∀ e ∈ q.1.events, isRelocateKey e = false) ∧
      (∀ e t, (q.1.CON_Events e t).currentPCBank = t.currentPCBank) ∧
      (∀ a t, (q.1.cmd_bp a t).currentPCBank = t.currentPCBank)) :
    (pollSequence polls s).2.currentPCBank = s.currentPCBank := by
  induction polls generalizing s with
  | nil => rfl
  | cons q rest ih =>
    obtain ⟨q1, q2, q3⟩ := hq q (List.mem_cons_self _ _)
    have hone := poll_currentPCBank_resolved q.1 { s with pc := q.2 } hres q2 q3 q1
    obtain ⟨qh, qp⟩ := q
    simp only [pollSequence]
    rw [ih _ (by rw [hone]; exact hres) (fun r hr => hq r (List.mem_cons_of_mem _ hr))]
    exact hone

/-- C8 at a concrete run: bank 4 resolved at 0xC100; a poll with other banks
active that scrolls, toggles a breakpoint and runs, then a poll at 0xA200 with
the break key held: the bank is still 4. -/
theorem C8_bank_stable_witness :
    (pollSequence [(busyHost, 0xC100), (breakKeyHost, 0xA200)] scenarioResolved).2.currentPCBank
      = 4 :=
  C8_bank_stable [(busyHost, 0xC100), (breakKeyHost, 0xA200)] scenarioResolved (by decide)
    (by
      intro q hq
      simp only [List.mem_cons, List.mem_singleton, List.not_mem_nil, or_false] at hq
      rcases hq with rfl | rfl
      · exact ⟨by decide, fun _ _ => rfl, fun _ _ => rfl⟩
      · exact ⟨by decide, fun _ _ => rfl, fun _ _ => rfl⟩)

/-! ## C9: step-over falls back to step-into -/

/-- C9: when the opcode at `pc` is not 0x20, the StepOver key (F10) produces
exactly the state the StepInto key (F11) produces: the mode is STEP and every
other global, `stepBreakPoint` and the cursor included, is unchanged. -/
theorem C9_step_over_fallback (h : Host) (s : DebugState) (isShift isShift2 : Int)
    (hop : h.real_read6502 s.pc ≠ 0x20) :
    DEBUGHandleKeyEvent h .SDLK_F10 isShift s = DEBUGHandleKeyEvent h .SDLK_F11 isShift2 s ∧
      DEBUGHandleKeyEvent h .SDLK_F10 isShift s = { s with currentMode := .DMODE_STEP } := by
  simp [DEBUGHandleKeyEvent, hop]

/-- C9 at a concrete state: the idle host reads opcode 0 at every address. -/
theorem C9_step_over_fallback_witness :
    DEBUGHandleKeyEvent idleHost .SDLK_F10 0 scenarioArmed =
      { scenarioArmed with currentMode := .DMODE_STEP } :=
  (C9_step_over_fallback idleHost scenarioArmed 0 0 (by decide)).2

/-! ## C10: polls while stopped keep the scrolled cursor -/

/-- C10 as stated fails: stopped with the cursor at address 2, one wheel-up
scrolls the cursor to -1; the next poll, still stopped and with the break key
up, resets the cursor to `pc` before any input is drained. -/
theorem C10_counterexample :
    (DEBUGGetCurrentStatus wheelUpHost scenarioLowCursor).2.currentMode = .DMODE_STOP ∧
      (DEBUGGetCurrentStatus wheelUpHost scenarioLowCursor).2.currentPC = -1 ∧
      idleHost.keyBRK = 0 ∧
      (pollChecks idleHost (DEBUGGetCurrentStatus wheelUpHost scenarioLowCursor).2).currentPC
        = 0x8000 := by
  decide

/-- C10 (amended): in mode STOP with a non-negative cursor, the checks of a poll
made with the break key up leave the cursor `currentPC` unchanged, also when
`pc` is a stored breakpoint or the step breakpoint; the cursor therefore reaches
the input-drain step as the user left it, and a poll that finds no queued
event ends with it unchanged. -/
theorem C10_stopped_cursor_kept (h : Host) (s : DebugState)
    (hstop : s.currentMode = .DMODE_STOP) (hcur : 0 ≤ s.currentPC)
    (hbrk : h.keyBRK = 0) :
    (pollChecks h s).currentPC = s.currentPC ∧
      (h.events = [] → (DEBUGGetCurrentStatus h s).2.currentPC = s.currentPC) := by
  have hpc : (pollChecks h s).currentPC = s.currentPC := by
    unfold pollChecks
    rw [checkBank_currentPC, checkBreakKey_idle h _ hbrk]
    have hinit : checkInit s = s := by
      unfold checkInit; rw [if_neg (by omega)]
    have hstep : checkStep s = s := by
      unfold checkStep; rw [if_neg (by simp [hstop])]
    rw [hinit, hstep]
    unfold checkBreakpoint
    split_ifs with h1 h2
    · exact absurd hstop h2
    · rfl
    · rfl
  refine ⟨hpc, fun hev => ?_⟩
  rw [(poll_no_events_result h s hev).2.2.1, hpc]

/-- C10 (amended) at a concrete poll: stopped on a stored breakpoint that is
also the step breakpoint, the cursor scrolled to 0x7FF0 stays there. -/
theorem C10_stopped_cursor_kept_witness :
    (pollChecks idleHost scenarioScrolled).currentPC = 0x7FF0 ∧
      (DEBUGGetCurrentStatus idleHost scenarioScrolled).2.currentPC = 0x7FF0 :=
  ⟨(C10_stopped_cursor_kept idleHost scenarioScrolled rfl (by decide) rfl).1,
    (C10_stopped_cursor_kept idleHost scenarioScrolled rfl (by decide) rfl).2 rfl⟩

/-! ## C11: break request -/

/-- The cursor after the checks of a poll entered in mode STOP with the break
key up: only the initialisation of a negative cursor can move it. -/
theorem pollChecks_currentPC_stopped (h : Host) (s : DebugState)
    (hstop : s.currentMode = .DMODE_STOP) (hbrk : h.keyBRK = 0) :
    (pollChecks h s).currentPC = if s.currentPC < 0 then s.pc else s.currentPC := by
  unfold pollChecks
  rw [checkBank_currentPC, checkBreakKey_idle h _ hbrk]
  have hm : (checkInit s).currentMode = .DMODE_STOP := by simp [hstop]
  have hstep : checkStep (checkInit s) = checkInit s := by
    unfold checkStep; rw [if_neg (by rw [hm]; decide)]
  rw [hstep]
  have hcur : (checkBreakpoint (checkInit s)).currentPC = (checkInit s).currentPC := by
    unfold checkBreakpoint
    split_ifs with h1 h2
    · exact absurd hm h2
    · rfl
    · rfl
  rw [hcur]
  unfold checkInit
  split_ifs <;> rfl

/-- The cursor after the checks of a poll made with the break key held. -/
theorem pollChecks_currentPC_breakKey (h : Host) (s : DebugState) (hbrk : h.keyBRK ≠ 0) :
    (pollChecks h s).currentPC = s.pc := by
  unfold pollChecks
  rw [checkBank_currentPC]
  unfold checkBreakKey
  rw [if_pos hbrk]
  simp

/-- C11 as stated fails: a break request made while `pc = 0x9000` sets the
cursor to 0x9000; when the next poll sees `pc = 0x9002` it returns 1 in mode
STOP but the cursor is still 0x9000, not the program counter of that poll. -/
theorem C11_counterexample :
    (DEBUGGetCurrentStatus idleHost
        { DEBUGBreakToDebugger scenarioArmed with pc := 0x9002 }).1 = 1 ∧
      (DEBUGGetCurrentStatus idleHost
        { DEBUGBreakToDebugger scenarioArmed with pc := 0x9002 }).2.currentMode = .DMODE_STOP ∧
      (DEBUGGetCurrentStatus idleHost
        { DEBUGBreakToDebugger scenarioArmed with pc := 0x9002 }).2.currentPC = 0x9000 ∧
      (0x9000 : Int) ≠ 0x9002 := by
  decide

/-- C11 (amended): after `DEBUGBreakToDebugger` the next poll, at any program
counter `p` and with no queued event, returns 1 with the mode at STOP; its cursor
`currentPC` is the program counter at the time of the break request when that
is non-negative and the break key is up, hence equal to `p` whenever the
program counter did not change in between; with the break key held the cursor
is `p`. -/
theorem C11_break_request (h : Host) (s : DebugState) (p : Int) (hev : h.events = []) :
    (DEBUGGetCurrentStatus h { DEBUGBreakToDebugger s with pc := p }).1 = 1 ∧
      (DEBUGGetCurrentStatus h { DEBUGBreakToDebugger s with pc := p }).2.currentMode =
        .DMODE_STOP ∧
      (h.keyBRK = 0 → 0 ≤ s.pc →
        (DEBUGGetCurrentStatus h { DEBUGBreakToDebugger s with pc := p }).2.currentPC = s.pc) ∧
      (p = s.pc →
        (DEBUGGetCurrentStatus h { DEBUGBreakToDebugger s with pc := p }).2.currentPC = p) ∧
      (h.keyBRK ≠ 0 →
        (DEBUGGetCurrentStatus h { DEBUGBreakToDebugger s with pc := p }).2.currentPC = p) := by
  have hstop : ({ DEBUGBreakToDebugger s with pc := p } : DebugState).currentMode =
      .DMODE_STOP := rfl
  obtain ⟨e1, e2, e3, -, -⟩ :=
    poll_no_events_result h { DEBUGBreakToDebugger s with pc := p } hev
  have hm := pollChecks_stop_of_ne_run h { DEBUGBreakToDebugger s with pc := p }
    (by rw [hstop]; decide)
  rw [e1, e2, e3, hm]
  refine ⟨by simp, rfl, ?_, ?_, ?_⟩
  · intro hbrk hpc
    rw [pollChecks_currentPC_stopped h _ hstop hbrk]
    show (if s.pc < 0 then p else s.pc) = s.pc
    rw [if_neg (by omega)]
  · intro hp
    by_cases hbrk : h.keyBRK = 0
    · rw [pollChecks_currentPC_stopped h _ hstop hbrk]
      show (if s.pc < 0 then p else s.pc) = p
      split_ifs
      · rfl
      · exact hp.symm
    · rw [pollChecks_currentPC_breakKey h _ hbrk]
  · intro hbrk
    rw [pollChecks_currentPC_breakKey h _ hbrk]

/-- C11 (amended) at a concrete run: a break request at 0x9000 followed by a
poll at the same program counter stops with the cursor at 0x9000. -/
theorem C11_break_request_witness :
    (DEBUGGetCurrentStatus idleHost
        { DEBUGBreakToDebugger scenarioArmed with pc := 0x9000 }).1 = 1 ∧
      (DEBUGGetCurrentStatus idleHost
        { DEBUGBreakToDebugger scenarioArmed with pc := 0x9000 }).2.currentPC = 0x9000 :=
  ⟨(C11_break_request idleHost scenarioArmed 0x9000 rfl).1,
    (C11_break_request idleHost scenarioArmed 0x9000 rfl).2.2.2.1 rfl⟩

/-! ## C12: scrolling the data address -/

/-- Bitwise difference against a mask of `k` ones complements the low `k` bits. -/
theorem ldiff_low_mask (k m : Nat) :
    Nat.ldiff (2 ^ k - 1) m = 2 ^ k - (m % 2 ^ k + 1) := by
  apply Nat.eq_of_testBit_eq
  intro i
  have hlt : m % 2 ^ k < 2 ^ k := Nat.mod_lt _ (Nat.two_pow_pos k)
  rw [Nat.testBit_ldiff, Nat.testBit_two_pow_sub_one, Nat.testBit_two_pow_sub_succ hlt,
    Nat.testBit_mod_two_pow]
  by_cases hi : i < k <;> simp [hi]

/-- Masking a two's complement integer with `k` ones is reduction modulo `2^k`. -/
theorem land_low_mask (x : Int) (k : Nat) :
    Int.land x ((2 ^ k - 1 : Nat) : Int) = x % 2 ^ k := by
  cases x with
  | ofNat m =>
    show ((m &&& (2 ^ k - 1) : Nat) : Int) = (m : Int) % 2 ^ k
    rw [Nat.and_pow_two_sub_one_eq_mod]
    push_cast
    rfl
  | negSucc m =>
    show ((Nat.ldiff (2 ^ k - 1) m : Nat) : Int) = Int.negSucc m % 2 ^ k
    rw [ldiff_low_mask, Int.negSucc_emod m (by positivity)]
    have hlt : m % 2 ^ k < 2 ^ k := Nat.mod_lt _ (Nat.two_pow_pos k)
    rw [Nat.cast_sub (by omega)]
    push_cast
    ring

/-- The mask of the RAM dump: `x & 0xFFFF`. -/
theorem land_0xFFFF (x : Int) : Int.land x 0xFFFF = x % 0x10000 := by
  have hk := land_low_mask x 16
  norm_num at hk
  exact hk

/-- The mask of the video-memory dump: `x & 0x1FFFF`. -/
theorem land_0x1FFFF (x : Int) : Int.land x 0x1FFFF = x % 0x20000 := by
  have hk := land_low_mask x 17
  norm_num at hk
  exact hk

/-- A non-zero wheel movement in the debugger window with the pointer in the
data zone only rewrites `currentData`. -/
theorem handleMouseWheel_data (s : DebugState) (y : Int) (hy : y ≠ 0)
    (hz : s.mouseZone = 2) :
    handleMouseWheel s.dbgWindowID y s =
      { s with currentData :=
          (s.currentData + (if y > 0 then -0x200 else 0x200)) %
            (if s.dumpmode = .DDUMP_RAM then 0x10000 else 0x20000) } := by
  unfold handleMouseWheel
  have hw : ¬ (s.dbgWindowID ≠ s.dbgWindowID ∨ y = 0) := by simp [hy]
  rw [if_neg hw, if_neg (by rw [hz]; decide), if_pos hz]
  dsimp only
  by_cases hd : s.dumpmode = .DDUMP_RAM
  · rw [if_pos hd, if_pos hd, land_0xFFFF]
  · rw [if_neg hd, if_neg hd, land_0x1FFFF]

/-- C12: for every data address and every non-zero wheel movement in the data
zone of the debugger window, the new `currentData` is `currentData - 0x200`
(wheel up) or `currentData + 0x200` (wheel down) reduced modulo `2^16` in the RAM
dump and modulo `2^17` in the video-memory dump; it lies in `[0, 0xFFFF]`,
respectively `[0, 0x1FFFF]`; and a wheel-up followed by a wheel-down restores
every address that is in range. -/
theorem C12_scroll_data (s : DebugState) (y : Int) (hy : y ≠ 0) (hz : s.mouseZone = 2) :
    (handleMouseWheel s.dbgWindowID y s).currentData =
        (s.currentData + (if y > 0 then -0x200 else 0x200)) %
          (if s.dumpmode = .DDUMP_RAM then 0x10000 else 0x20000) ∧
      0 ≤ (handleMouseWheel s.dbgWindowID y s).currentData ∧
      (handleMouseWheel s.dbgWindowID y s).currentData <
        (if s.dumpmode = .DDUMP_RAM then 0x10000 else 0x20000) ∧
      ∀ up down : Int, 0 < up → down < 0 → 0 ≤ s.currentData →
        s.currentData < (if s.dumpmode = .DDUMP_RAM then 0x10000 else 0x20000) →
        (handleMouseWheel s.dbgWindowID down
          (handleMouseWheel s.dbgWindowID up s)).currentData = s.currentData := by
  have hM : (0 : Int) < (if s.dumpmode = .DDUMP_RAM then 0x10000 else 0x20000) := by
    split_ifs <;> norm_num
  rw [handleMouseWheel_data s y hy hz]
  refine ⟨rfl, Int.emod_nonneg _ (ne_of_gt hM), Int.emod_lt_of_pos _ hM, ?_⟩
  intro up down hup hdown h0 h1
  rw [handleMouseWheel_data s up (ne_of_gt hup) hz]
  have hstep := handleMouseWheel_data
    { s with currentData :=
        (s.currentData + (if up > 0 then -0x200 else 0x200)) %
          (if s.dumpmode = .DDUMP_RAM then 0x10000 else 0x20000) }
    down (ne_of_lt hdown) hz
  rw [hstep]
  show ((s.currentData + (if up > 0 then -0x200 else 0x200)) %
      (if s.dumpmode = .DDUMP_RAM then 0x10000 else 0x20000) +
      (if down > 0 then -0x200 else 0x200)) %
      (if s.dumpmode = .DDUMP_RAM then 0x10000 else 0x20000) = s.currentData
  rw [if_pos hup, if_neg (show ¬ down > 0 by omega)]
  by_cases hd : s.dumpmode = .DDUMP_RAM
  · rw [if_pos hd] at h1 ⊢
    omega
  · rw [if_neg hd] at h1 ⊢
    omega

/-- C12 at concrete scrolls: wheel-up from 0x0100 in the RAM dump wraps to
0xFF00, and wheel-down from 0x1FF00 in the video-memory dump wraps to 0x0100. -/
theorem C12_scroll_data_witness :
    (handleMouseWheel 1 1 scenarioDataRam).currentData = 0xFF00 ∧
      (handleMouseWheel 1 (-1) scenarioDataVera).currentData = 0x0100 :=
  ⟨(C12_scroll_data scenarioDataRam 1 (by decide) rfl).1.trans (by decide),
    (C12_scroll_data scenarioDataVera (-1) (by decide) rfl).1.trans (by decide)⟩

/-! ## C13: breakpoint membership -/

/-- C13: when `breakpointsCount` does not exceed the size of the array,
`isOnBreakpoint(addr)` is true if and only if `addr` is one of the first
`breakpointsCount` entries; it is false for an empty store; and the guarded test
`breakpointsCount && isOnBreakpoint(addr)` of the poll equals
`isOnBreakpoint(addr)` for every store. -/
theorem C13_breakpoint_membership (s : DebugState) (addr : Int) :
    (s.breakpointsCount ≤ s.breakpoints.length →
        (isOnBreakpoint s addr = true ↔
          ∃ i : Nat, (i : Int) < s.breakpointsCount ∧ s.breakpoints[i]? = some addr)) ∧
      (s.breakpointsCount = 0 → isOnBreakpoint s addr = false) ∧
      (decide (s.breakpointsCount ≠ 0) && isOnBreakpoint s addr) = isOnBreakpoint s addr := by
  have hempty : s.breakpointsCount = 0 → isOnBreakpoint s addr = false := by
    intro hc
    simp [isOnBreakpoint, hc, isOnBreakpointFrom]
  refine ⟨?_, hempty, ?_⟩
  · intro hwf
    unfold isOnBreakpoint
    rw [isOnBreakpointFrom_iff]
    constructor
    · rintro ⟨i, -, hi, hget⟩
      have hlen : i < s.breakpoints.length := by omega
      refine ⟨i, by omega, ?_⟩
      rw [List.getD_eq_getElem _ _ hlen] at hget
      rw [List.getElem?_eq_getElem hlen, hget]
    · rintro ⟨i, hi, hget⟩
      refine ⟨i, Nat.zero_le _, by omega, ?_⟩
      simp [List.getD, hget]
  · by_cases hc : s.breakpointsCount = 0
    · simp [hc, hempty hc]
    · simp [hc]

/-- C13 at a concrete store holding 0x810D and 0x9000: the second entry is
found. -/
theorem C13_breakpoint_membership_witness :
    isOnBreakpoint scenarioTwoBreakpoints 0x9000 = true :=
  ((C13_breakpoint_membership scenarioTwoBreakpoints 0x9000).1 (by decide)).2
    ⟨1, by decide, rfl⟩

/-! ## C14: the return code of the poll -/

/-- Draining a queue whose last mode-changing action is a Run key. -/
theorem drainEvents_runKey (h : Host) (s : DebugState)
    (pre post : List SDL_Event) (isShift : Int)
    (hpre : SDL_Event.SDL_QUIT ∉ pre) (hpostq : SDL_Event.SDL_QUIT ∉ post)
    (hpost : ∀ e ∈ post, isModeKey e = false)
    (hcon : ∀ e t, (h.CON_Events e t).currentMode = t.currentMode)
    (hbp : ∀ a t, (h.cmd_bp a t).currentMode = t.currentMode) :
    (drainEvents h (pre ++ SDL_Event.SDL_KEYDOWN .SDLK_F5 isShift :: post) s).1 = false ∧
      (drainEvents h (pre ++ SDL_Event.SDL_KEYDOWN .SDLK_F5 isShift :: post) s).2.currentMode =
        .DMODE_RUN := by
  rw [drainEvents_append h pre _ s hpre]
  simp only [drainEvents]
  constructor
  · rw [drainEvents_fst]; simpa using hpostq
  · rw [drainEvents_currentMode h post _ hcon hbp hpost]
    simp [handleEvent, hcon, DEBUGHandleKeyEvent]

/-- The poll returns -1 exactly when it drains the input and meets a quit
event. -/
theorem poll_quit_iff (h : Host) (s : DebugState) :
    (pollInput h (pollChecks h s)).1 = true ↔
      ((pollChecks h s).currentMode ≠ .DMODE_RUN ∧ SDL_Event.SDL_QUIT ∈ h.events) := by
  unfold pollInput
  split_ifs with hm
  · rw [drainEvents_fst]; simp [hm]
  · simp [hm]

/-- C14: the poll returns -1, 0 or 1; it returns -1 exactly when the mode after
the checks is not RUN and a quit event is queued; otherwise it returns 1 exactly
when the mode at the end of the poll is STOP and 0 exactly when it is RUN or
STEP.  Hence, whenever the input is drained (in particular when stopped on a
breakpoint) and the last mode-changing action of a quit-free queue is a Run
(F5) or StepInto (F11) key, that same poll returns 0 with the mode at RUN,
respectively STEP; and after Run a next poll away from every breakpoint, with
the break key up, returns 0 again.  For the last part the console and the `bp`
command are assumed not to assign `currentMode`. -/
theorem C14_return_code_law (h : Host) (s : DebugState) :
    ((DEBUGGetCurrentStatus h s).1 = -1 ∨ (DEBUGGetCurrentStatus h s).1 = 0 ∨
        (DEBUGGetCurrentStatus h s).1 = 1) ∧
      ((DEBUGGetCurrentStatus h s).1 = -1 ↔
        ((pollChecks h s).currentMode ≠ .DMODE_RUN ∧ SDL_Event.SDL_QUIT ∈ h.events)) ∧
      ((DEBUGGetCurrentStatus h s).1 ≠ -1 →
        ((DEBUGGetCurrentStatus h s).1 = 1 ↔
          (DEBUGGetCurrentStatus h s).2.currentMode = .DMODE_STOP) ∧
        ((DEBUGGetCurrentStatus h s).1 = 0 ↔
          ((DEBUGGetCurrentStatus h s).2.currentMode = .DMODE_RUN ∨
            (DEBUGGetCurrentStatus h s).2.currentMode = .DMODE_STEP))) ∧
      (∀ (pre post : List SDL_Event) (isShift : Int),
        (pollChecks h s).currentMode ≠ .DMODE_RUN →
        SDL_Event.SDL_QUIT ∉ pre → SDL_Event.SDL_QUIT ∉ post →
        (∀ e ∈ post, isModeKey e = false) →
        (∀ e t, (h.CON_Events e t).currentMode = t.currentMode) →
        (∀ a t, (h.cmd_bp a t).currentMode = t.currentMode) →
        (h.events = pre ++ SDL_Event.SDL_KEYDOWN .SDLK_F5 isShift :: post →
          (DEBUGGetCurrentStatus h s).1 = 0 ∧
          (DEBUGGetCurrentStatus h s).2.currentMode = .DMODE_RUN ∧
          ∀ (h2 : Host) (p : Int), h2.keyBRK = 0 →
            hitBreakpoint { (DEBUGGetCurrentStatus h s).2 with pc := p } = false →
            (DEBUGGetCurrentStatus h2 { (DEBUGGetCurrentStatus h s).2 with pc := p }).1 = 0) ∧
        (h.events = pre ++ SDL_Event.SDL_KEYDOWN .SDLK_F11 isShift :: post →
          (DEBUGGetCurrentStatus h s).1 = 0 ∧
          (DEBUGGetCurrentStatus h s).2.currentMode = .DMODE_STEP)) := by
  have hstatus : (DEBUGGetCurrentStatus h s).1 =
      if (pollInput h (pollChecks h s)).1 = true then -1
      else if (pollInput h (pollChecks h s)).2.currentMode = .DMODE_STOP then 1 else 0 := by
    unfold DEBUGGetCurrentStatus
    dsimp only
    split_ifs with hq hm <;> first | rfl | (rw [pollFinish_status]; simp [hm])
  have hmode : (pollInput h (pollChecks h s)).1 = false →
      (DEBUGGetCurrentStatus h s).2.currentMode =
        (pollInput h (pollChecks h s)).2.currentMode := by
    intro hq
    unfold DEBUGGetCurrentStatus
    simp [hq]
  have hkey : ∀ (evs : List SDL_Event) (m : DMode), m ≠ .DMODE_STOP →
      (pollChecks h s).currentMode ≠ .DMODE_RUN → h.events = evs →
      ((drainEvents h evs { pollChecks h s with showFullDisplay := h.keySHOW }).1 = false ∧
        (drainEvents h evs
          { pollChecks h s with showFullDisplay := h.keySHOW }).2.currentMode = m) →
      (DEBUGGetCurrentStatus h s).1 = 0 ∧ (DEBUGGetCurrentStatus h s).2.currentMode = m := by
    intro evs m hne hin hev hd
    have hpi : pollInput h (pollChecks h s) =
        drainEvents h evs { pollChecks h s with showFullDisplay := h.keySHOW } := by
      simp [pollInput, hin, hev]
    rw [← hpi] at hd
    refine ⟨?_, by rw [hmode hd.1, hd.2]⟩
    rw [hstatus, hd.1, hd.2]
    simp [hne]
  refine ⟨?_, ?_, ?_, ?_⟩
  · rw [hstatus]
    split_ifs <;> simp
  · rw [← poll_quit_iff, hstatus]
    split_ifs with hq hm <;> simp [hq]
  · intro hne
    have hq : (pollInput h (pollChecks h s)).1 = false := by
      by_contra hc
      apply hne
      rw [hstatus, if_pos (by simpa using hc)]
    rw [hmode hq, hstatus, hq]
    cases hcm : (pollInput h (pollChecks h s)).2.currentMode <;> simp
  · intro pre post isShift hin hpre hpostq hpost hcon hbp
    constructor
    · intro hev
      obtain ⟨r1, r2⟩ := hkey _ .DMODE_RUN (by decide) hin hev
        (drainEvents_runKey h _ pre post isShift hpre hpostq hpost hcon hbp)
      refine ⟨r1, r2, ?_⟩
      intro h2 p hbrk hno
      exact (poll_run_no_hit h2 { (DEBUGGetCurrentStatus h s).2 with pc := p } r2 hbrk hno).1
    · intro hev
      exact hkey _ .DMODE_STEP (by decide) hin hev
        (drainEvents_stepInto h _ pre post isShift hpre hpostq hpost hcon hbp)

/-- C14 at concrete polls: stopped on the breakpoint 0x8000, a queued Run key
makes the poll return 0 and the next poll at 0x8003 returns 0 too; a queued
StepInto key makes the poll return 0 in mode STEP. -/
theorem C14_return_code_law_witness :
    (DEBUGGetCurrentStatus runKeyHost scenarioOnBreakpoint).1 = 0 ∧
      (DEBUGGetCurrentStatus idleHost
        { (DEBUGGetCurrentStatus runKeyHost scenarioOnBreakpoint).2 with pc := 0x8003 }).1 = 0 ∧
      (DEBUGGetCurrentStatus stepKeyHost scenarioOnBreakpoint).2.currentMode = .DMODE_STEP :=
  have run := ((C14_return_code_law runKeyHost scenarioOnBreakpoint).2.2.2 [] [] 0
    (by decide) (by decide) (by decide) (by decide) (fun _ _ => rfl) (fun _ _ => rfl)).1 rfl
  have step := ((C14_return_code_law stepKeyHost scenarioOnBreakpoint).2.2.2 [] [] 0
    (by decide) (by decide) (by decide) (by decide) (fun _ _ => rfl) (fun _ _ => rfl)).2 rfl
  ⟨run.1, run.2.2 idleHost 0x8003 rfl (by decide), step.2⟩

/-! ## C6: when the step breakpoint is cleared -/

@[simp] theorem handleMouseMotion_stepBreakPoint (w : Nat) (x y : Int) (s : DebugState) :
    (handleMouseMotion w x y s).stepBreakPoint = s.stepBreakPoint := by
  unfold handleMouseMotion; split_ifs <;> rfl

@[simp] theorem handleMouseWheel_stepBreakPoint (w : Nat) (y : Int) (s : DebugState) :
    (handleMouseWheel w y s).stepBreakPoint = s.stepBreakPoint := by
  unfold handleMouseWheel; dsimp only; split_ifs <;> rfl

/-- No event makes a stopped debugger carry an armed step breakpoint: the only
key that arms it also sets the mode to RUN. -/
theorem handleEvent_stop_unarmed (h : Host) (e : SDL_Event) (s : DebugState)
    (hcon : ∀ e t, (h.CON_Events e t).currentMode = t.currentMode ∧
      (h.CON_Events e t).stepBreakPoint = t.stepBreakPoint)
    (hbp : ∀ a t, (h.cmd_bp a t).currentMode = t.currentMode ∧
      (h.cmd_bp a t).stepBreakPoint = t.stepBreakPoint)
    (hinv : s.currentMode = .DMODE_STOP → s.stepBreakPoint = -1) :
    (handleEvent h e s).currentMode = .DMODE_STOP → (handleEvent h e s).stepBreakPoint = -1 := by
  unfold handleEvent
  rw [(hcon _ _).1, (hcon _ _).2]
  cases e with
  | SDL_QUIT => exact hinv
  | SDL_KEYDOWN sym sh =>
    cases sym
    case SDLK_F10 =>
      simp only [DEBUGHandleKeyEvent]
      split_ifs <;> simp
    case SDLK_F9 =>
      simp only [DEBUGHandleKeyEvent, DEBUGSetBreakPoint]
      rw [(hbp _ _).1, (hbp _ _).2]
      exact hinv
    case SDLK_F11 => simp [DEBUGHandleKeyEvent]
    case SDLK_F5 => simp [DEBUGHandleKeyEvent]
    all_goals simpa [DEBUGHandleKeyEvent] using hinv
  | SDL_MOUSEMOTION w x y => simpa using hinv
  | SDL_MOUSEWHEEL w y => simpa using hinv
  | SDL_OTHEREVENT ty => exact hinv

/-- The event loop keeps a stopped debugger unarmed. -/
theorem drainEvents_stop_unarmed (h : Host) (evs : List SDL_Event) (s : DebugState)
    (hcon : ∀ e t, (h.CON_Events e t).currentMode = t.currentMode ∧
      (h.CON_Events e t).stepBreakPoint = t.stepBreakPoint)
    (hbp : ∀ a t, (h.cmd_bp a t).currentMode = t.currentMode ∧
      (h.cmd_bp a t).stepBreakPoint = t.stepBreakPoint)
    (hinv : s.currentMode = .DMODE_STOP → s.stepBreakPoint = -1) :
    (drainEvents h evs s).2.currentMode = .DMODE_STOP →
      (drainEvents h evs s).2.stepBreakPoint = -1 := by
  induction evs generalizing s with
  | nil => simpa [drainEvents] using hinv
  | cons e rest ih =>
    have hhd := handleEvent_stop_unarmed h e s hcon hbp hinv
    cases e with
    | SDL_QUIT => simpa [drainEvents] using hinv
    | SDL_KEYDOWN sym sh => simp only [drainEvents]; exact ih _ hhd
    | SDL_MOUSEMOTION w x y => simp only [drainEvents]; exact ih _ hhd
    | SDL_MOUSEWHEEL w y => simp only [drainEvents]; exact ih _ hhd
    | SDL_OTHEREVENT ty => simp only [drainEvents]; exact ih _ hhd

/-- C6 as stated fails: a poll that stops on the break key, a poll that degrades
STEP to STOP and `DEBUGBreakToDebugger` all leave the target 0x8003 armed; after
the break-key stop a Run key resumes and the stale target stops the run at
0x8003. -/
theorem C6_counterexample :
    (DEBUGGetCurrentStatus breakKeyHost scenarioArmed).2.currentMode = .DMODE_STOP ∧
      (DEBUGGetCurrentStatus breakKeyHost scenarioArmed).2.stepBreakPoint = 0x8003 ∧
      (DEBUGGetCurrentStatus idleHost scenarioArmedStep).2.currentMode = .DMODE_STOP ∧
      (DEBUGGetCurrentStatus idleHost scenarioArmedStep).2.stepBreakPoint = 0x8003 ∧
      (DEBUGBreakToDebugger scenarioArmed).currentMode = .DMODE_STOP ∧
      (DEBUGBreakToDebugger scenarioArmed).stepBreakPoint = 0x8003 ∧
      (pollSequence
        [(breakKeyHost, 0x9000), (runKeyHost, 0x9000), (idleHost, 0x9003), (idleHost, 0x8003)]
        scenarioArmed).1 = [1, 0, 0, 1] := by
  decide

/-- An event other than the StepOver key leaves the step breakpoint alone,
provided the console and the `bp` command do. -/
theorem handleEvent_stepBreakPoint (h : Host) (e : SDL_Event) (s : DebugState)
    (hcon : ∀ e t, (h.CON_Events e t).currentMode = t.currentMode ∧
      (h.CON_Events e t).stepBreakPoint = t.stepBreakPoint)
    (hbp : ∀ a t, (h.cmd_bp a t).currentMode = t.currentMode ∧
      (h.cmd_bp a t).stepBreakPoint = t.stepBreakPoint)
    (he : isStepOverKey e = false) :
    (handleEvent h e s).stepBreakPoint = s.stepBreakPoint := by
  unfold handleEvent
  rw [(hcon _ _).2]
  cases e with
  | SDL_QUIT => rfl
  | SDL_KEYDOWN sym sh =>
    cases sym
    case SDLK_F10 => simp [isStepOverKey] at he
    case SDLK_F9 =>
      simp only [DEBUGHandleKeyEvent, DEBUGSetBreakPoint]
      exact (hbp _ _).2
    all_goals rfl
  | SDL_MOUSEMOTION w x y => simp
  | SDL_MOUSEWHEEL w y => simp
  | SDL_OTHEREVENT ty => rfl

/-- A queue without a StepOver key leaves the step breakpoint alone. -/
theorem drainEvents_stepBreakPoint (h : Host) (evs : List SDL_Event) (s : DebugState)
    (hcon : ∀ e t, (h.CON_Events e t).currentMode = t.currentMode ∧
      (h.CON_Events e t).stepBreakPoint = t.stepBreakPoint)
    (hbp : ∀ a t, (h.cmd_bp a t).currentMode = t.currentMode ∧
      (h.cmd_bp a t).stepBreakPoint = t.stepBreakPoint)
    (he : ∀ e ∈ evs, isStepOverKey e = false) :
    (drainEvents h evs s).2.stepBreakPoint = s.stepBreakPoint := by
  induction evs generalizing s with
  | nil => simp [drainEvents]
  | cons e rest ih =>
    have hrest : ∀ e ∈ rest, isStepOverKey e = false :=
      fun e hm => he e (List.mem_cons_of_mem _ hm)
    have hhd := handleEvent_stepBreakPoint h e s hcon hbp (he e (List.mem_cons_self _ _))
    cases e with
    | SDL_QUIT => simp [drainEvents]
    | SDL_KEYDOWN sym sh => simp only [drainEvents]; rw [ih _ hrest, hhd]
    | SDL_MOUSEMOTION w x y => simp only [drainEvents]; rw [ih _ hrest, hhd]
    | SDL_MOUSEWHEEL w y => simp only [drainEvents]; rw [ih _ hrest, hhd]
    | SDL_OTHEREVENT ty => simp only [drainEvents]; rw [ih _ hrest, hhd]

/-- The step breakpoint a poll leaves is the one its input step leaves. -/
theorem poll_stepBreakPoint (h : Host) (s : DebugState) :
    (DEBUGGetCurrentStatus h s).2.stepBreakPoint =
      (pollInput h (pollChecks h s)).2.stepBreakPoint := by
  unfold DEBUGGetCurrentStatus
  dsimp only
  split_ifs
  · rfl
  · simp

/-- A poll away from every breakpoint and from the step breakpoint, whose queue
holds no StepOver key, leaves the step breakpoint as it was. -/
theorem poll_stepBreakPoint_kept (h : Host) (s : DebugState)
    (hcon : ∀ e t, (h.CON_Events e t).currentMode = t.currentMode ∧
      (h.CON_Events e t).stepBreakPoint = t.stepBreakPoint)
    (hbp : ∀ a t, (h.cmd_bp a t).currentMode = t.currentMode ∧
      (h.cmd_bp a t).stepBreakPoint = t.stepBreakPoint)
    (hno : hitBreakpoint s = false)
    (he : ∀ e ∈ h.events, isStepOverKey e = false) :
    (DEBUGGetCurrentStatus h s).2.stepBreakPoint = s.stepBreakPoint := by
  have hs : (pollChecks h s).stepBreakPoint = s.stepBreakPoint := by
    rw [pollChecks_stepBreakPoint]; simp [hno]
  rw [poll_stepBreakPoint]
  unfold pollInput
  split_ifs
  · rw [drainEvents_stepBreakPoint h h.events _ hcon hbp he]
    exact hs
  · exact hs

/-- A key that is no mode key is in particular not the StepOver key. -/
theorem isStepOverKey_of_not_modeKey (e : SDL_Event) (he : isModeKey e = false) :
    isStepOverKey e = false := by
  cases e with
  | SDL_KEYDOWN sym sh => cases sym <;> simp_all [isModeKey, isStepOverKey]
  | _ => rfl

/-- A poll that drains its input and whose last mode-changing action is a Run
key returns 0 and leaves the mode at RUN. -/
theorem poll_runKey (h : Host) (s : DebugState) (pre post : List SDL_Event) (isShift : Int)
    (hin : (pollChecks h s).currentMode ≠ .DMODE_RUN)
    (hev : h.events = pre ++ SDL_Event.SDL_KEYDOWN .SDLK_F5 isShift :: post)
    (hpre : SDL_Event.SDL_QUIT ∉ pre) (hpostq : SDL_Event.SDL_QUIT ∉ post)
    (hpost : ∀ e ∈ post, isModeKey e = false)
    (hcon : ∀ e t, (h.CON_Events e t).currentMode = t.currentMode)
    (hbp : ∀ a t, (h.cmd_bp a t).currentMode = t.currentMode) :
    (DEBUGGetCurrentStatus h s).1 = 0 ∧
      (DEBUGGetCurrentStatus h s).2.currentMode = .DMODE_RUN := by
  have hpi : pollInput h (pollChecks h s) =
      drainEvents h (pre ++ SDL_Event.SDL_KEYDOWN .SDLK_F5 isShift :: post)
        { pollChecks h s with showFullDisplay := h.keySHOW } := by
    simp [pollInput, hin, hev]
  obtain ⟨d1, d2⟩ := drainEvents_runKey h
    { pollChecks h s with showFullDisplay := h.keySHOW } pre post isShift hpre hpostq hpost hcon hbp
  rw [← hpi] at d1 d2
  have hres : DEBUGGetCurrentStatus h s = pollFinish h (pollInput h (pollChecks h s)).2 := by
    simp [DEBUGGetCurrentStatus, d1]
  rw [hres, pollFinish_status, pollFinish_currentMode, d2]
  simp

/-- A poll whose program counter is the step breakpoint, finding no queued
event, returns 1, stops and clears the step breakpoint. -/
theorem poll_at_target (h : Host) (s : DebugState)
    (hpc : s.pc = s.stepBreakPoint) (hev : h.events = []) :
    (DEBUGGetCurrentStatus h s).1 = 1 ∧
      (DEBUGGetCurrentStatus h s).2.currentMode = .DMODE_STOP ∧
      (DEBUGGetCurrentStatus h s).2.stepBreakPoint = -1 := by
  have hhit : hitBreakpoint s = true := by
    simp [hitBreakpoint, hpc]
  obtain ⟨e1, e2, -, e4, -⟩ := poll_no_events_result h s hev
  have hstop : (pollChecks h s).currentMode = .DMODE_STOP := by
    unfold pollChecks
    rw [checkBank_currentMode]
    unfold checkBreakKey
    split_ifs
    · rfl
    · unfold checkBreakpoint
      rw [hitBreakpoint_checkStep_checkInit]
      simp [hhit]
  rw [e1, e2, e4, hstop, pollChecks_stepBreakPoint]
  simp [hhit]

/-- C6 (amended): the step breakpoint is cleared by the breakpoint branch only.
A poll entered with `pc` on a stored breakpoint or on the step breakpoint that
ends in mode STOP ends with `stepBreakPoint = -1`, whatever the queue holds.  A
poll entered elsewhere whose queue holds no StepOver key (so that a stop can only
come from STEP degrading or from the break key) leaves `stepBreakPoint` as it
was, and so does `DEBUGBreakToDebugger`, which sets the mode to STOP.  A target
left armed in a stopped state survives a following Run key: that poll returns 0
in mode RUN with the target unchanged, the polls that then run on with the break
key up, away from the target and from stored breakpoints, return 0, and the
poll whose `pc` equals the target, finding no queued event, returns 1 with the
mode at STOP and `stepBreakPoint = -1`.  The console and the `bp` command are
assumed to assign neither `currentMode` nor `stepBreakPoint`. -/
theorem C6_target_cleared_on_hit_only (h : Host) (s : DebugState)
    (hcon : ∀ e t, (h.CON_Events e t).currentMode = t.currentMode ∧
      (h.CON_Events e t).stepBreakPoint = t.stepBreakPoint)
    (hbp : ∀ a t, (h.cmd_bp a t).currentMode = t.currentMode ∧
      (h.cmd_bp a t).stepBreakPoint = t.stepBreakPoint) :
    (hitBreakpoint s = true →
        (DEBUGGetCurrentStatus h s).2.currentMode = .DMODE_STOP →
        (DEBUGGetCurrentStatus h s).2.stepBreakPoint = -1) ∧
      (hitBreakpoint s = false → (∀ e ∈ h.events, isStepOverKey e = false) →
        (DEBUGGetCurrentStatus h s).2.stepBreakPoint = s.stepBreakPoint) ∧
      (DEBUGBreakToDebugger s).currentMode = .DMODE_STOP ∧
      (DEBUGBreakToDebugger s).stepBreakPoint = s.stepBreakPoint ∧
      (∀ (pre post : List SDL_Event) (isShift : Int) (polls : List (Host × Int)) (h2 : Host),
        s.currentMode = .DMODE_STOP → hitBreakpoint s = false →
        h.events = pre ++ SDL_Event.SDL_KEYDOWN .SDLK_F5 isShift :: post →
        SDL_Event.SDL_QUIT ∉ pre → SDL_Event.SDL_QUIT ∉ post →
        (∀ e ∈ pre, isStepOverKey e = false) → (∀ e ∈ post, isModeKey e = false) →
        (∀ q ∈ polls, q.1.keyBRK = 0 ∧ q.2 ≠ s.stepBreakPoint ∧
          isOnBreakpoint (DEBUGGetCurrentStatus h s).2 q.2 = false) →
        h2.events = [] →
        (DEBUGGetCurrentStatus h s).1 = 0 ∧
          (DEBUGGetCurrentStatus h s).2.currentMode = .DMODE_RUN ∧
          (DEBUGGetCurrentStatus h s).2.stepBreakPoint = s.stepBreakPoint ∧
          (pollSequence polls (DEBUGGetCurrentStatus h s).2).1 =
            List.replicate polls.length 0 ∧
          (DEBUGGetCurrentStatus h2
            { (pollSequence polls (DEBUGGetCurrentStatus h s).2).2 with
              pc := s.stepBreakPoint }).1 = 1 ∧
          (DEBUGGetCurrentStatus h2
            { (pollSequence polls (DEBUGGetCurrentStatus h s).2).2 with
              pc := s.stepBreakPoint }).2.currentMode = .DMODE_STOP ∧
          (DEBUGGetCurrentStatus h2
            { (pollSequence polls (DEBUGGetCurrentStatus h s).2).2 with
              pc := s.stepBreakPoint }).2.stepBreakPoint = -1) := by
  refine ⟨?_, ?_, rfl, rfl, ?_⟩
  · intro hhit
    have hs : (pollChecks h s).stepBreakPoint = -1 := by
      rw [pollChecks_stepBreakPoint]; simp [hhit]
    have hin : (pollInput h (pollChecks h s)).2.currentMode = .DMODE_STOP →
        (pollInput h (pollChecks h s)).2.stepBreakPoint = -1 := by
      unfold pollInput
      split_ifs
      · exact drainEvents_stop_unarmed h h.events _ hcon hbp (fun _ => hs)
      · exact fun _ => hs
    unfold DEBUGGetCurrentStatus
    dsimp only
    split_ifs
    · exact hin
    · simpa using hin
  · intro hno he
    exact poll_stepBreakPoint_kept h s hcon hbp hno he
  · intro pre post isShift polls h2 hstop hno hev hpre hpostq hprek hpost hq hev2
    have hin : (pollChecks h s).currentMode ≠ .DMODE_RUN := by
      rw [pollChecks_stop_of_ne_run h s (by rw [hstop]; decide)]; decide
    obtain ⟨r1, r2⟩ := poll_runKey h s pre post isShift hin hev hpre hpostq hpost
      (fun e t => (hcon e t).1) (fun a t => (hbp a t).1)
    have hkeys : ∀ e ∈ h.events, isStepOverKey e = false := by
      intro e he
      rw [hev, List.mem_append, List.mem_cons] at he
      rcases he with he | rfl | he
      · exact hprek e he
      · rfl
      · exact isStepOverKey_of_not_modeKey e (hpost e he)
    have r3 := poll_stepBreakPoint_kept h s hcon hbp hno hkeys
    obtain ⟨q1, q2, q3⟩ := pollSequence_running polls (DEBUGGetCurrentStatus h s).2 r2
      (by rw [r3]; exact hq)
    rw [r3] at q3
    refine ⟨r1, r2, r3, q1, ?_⟩
    exact poll_at_target h2
      { (pollSequence polls (DEBUGGetCurrentStatus h s).2).2 with pc := s.stepBreakPoint }
      q3.symm hev2

/-- C6 (amended) at concrete polls: a poll at the armed target clears it; a
break-key stop and a STEP-to-STOP poll elsewhere both stop with the target
0x8003 still armed; and from the state the break-key stop left, a Run key
resumes, the poll at 0x9003 runs on, and the poll at 0x8003 returns 1. -/
theorem C6_target_cleared_on_hit_only_witness :
    (DEBUGGetCurrentStatus idleHost { scenarioArmed with pc := 0x8003 }).2.stepBreakPoint = -1 ∧
      (DEBUGGetCurrentStatus breakKeyHost scenarioArmed).2.currentMode = .DMODE_STOP ∧
      (DEBUGGetCurrentStatus breakKeyHost scenarioArmed).2.stepBreakPoint = 0x8003 ∧
      (DEBUGGetCurrentStatus idleHost scenarioArmedStep).2.currentMode = .DMODE_STOP ∧
      (DEBUGGetCurrentStatus idleHost scenarioArmedStep).2.stepBreakPoint = 0x8003 ∧
      (DEBUGGetCurrentStatus runKeyHost scenarioBroken).1 = 0 ∧
      (DEBUGGetCurrentStatus runKeyHost scenarioBroken).2.stepBreakPoint = 0x8003 ∧
      (DEBUGGetCurrentStatus idleHost
        { (pollSequence [(idleHost, 0x9003)]
            (DEBUGGetCurrentStatus runKeyHost scenarioBroken).2).2 with pc := 0x8003 }).1 = 1 :=
  have later := (C6_target_cleared_on_hit_only runKeyHost scenarioBroken
    (fun _ _ => ⟨rfl, rfl⟩) (fun _ _ => ⟨rfl, rfl⟩)).2.2.2.2 [] [] 0 [(idleHost, 0x9003)]
    idleHost (by decide) (by decide) rfl (by decide) (by decide) (by decide) (by decide)
    (by decide) rfl
  ⟨(C6_target_cleared_on_hit_only idleHost { scenarioArmed with pc := 0x8003 }
      (fun _ _ => ⟨rfl, rfl⟩) (fun _ _ => ⟨rfl, rfl⟩)).1 (by decide) (by decide),
    by decide,
    (C6_target_cleared_on_hit_only breakKeyHost scenarioArmed
      (fun _ _ => ⟨rfl, rfl⟩) (fun _ _ => ⟨rfl, rfl⟩)).2.1 (by decide) (by decide),
    by decide,
    (C6_target_cleared_on_hit_only idleHost scenarioArmedStep
      (fun _ _ => ⟨rfl, rfl⟩) (fun _ _ => ⟨rfl, rfl⟩)).2.1 (by decide) (by decide),
    later.1, later.2.2.1, later.2.2.2.2.1⟩

end X16Debugger
